import Mathlib

/-!
# Verification of the Partitioner layout-reconstruction core

A shallow embedding, in Lean 4, of the parts of the Partitioner repository
(`src/processor/…`) that the specification's testable claims are about:

* `src/processor/text_patterns.py` / `src/processor/patterns.py` – the regex
  pattern tables (embedded through a small Brzozowski-derivative regex engine);
* `src/processor/text_analysis.py` – text statistics and per-type predicates;
* `src/processor/data_models.py` – `ElementType`, `CoordinatesMetadata`,
  `ElementMetadata`, `Element`;
* `src/processor/caption_detector.py` – `is_likely_caption` (embedded as an
  `Except`-valued function: the reference to the never-imported `ElementType`
  name on line 237 raises `NameError` whenever `elements_before` is non-empty);
* `src/processor/element_classifier.py` – `classify_element`;
* `src/processor/spatial_grouper.py` – `merge_blocks` / `merge_text_blocks`;
* `src/processor/list_handler.py` – `group_consecutive_list_items`;
* `src/processor/document_structure.py` – the five split detectors and
  `DocumentStructureAnalyzer.analyze`.

Python `float` coordinates, sizes and confidences are modelled as `Q`
(every constant appearing in the sources is a short decimal, so rational
arithmetic coincides with the source's float arithmetic on all inputs used
here).  Python dictionaries are modelled as structures of `Option`-valued
fields covering exactly the keys the embedded code reads; `dict.get(k, d)`
becomes `Option.getD`.  In-place mutation (`style_info['median_font_size']
= …`, `element.metadata.list_group_id = …`) is modelled by returning the
updated value.  `uuid.uuid4()` is modelled by a fresh-name counter (all
that the code relies upon is freshness).  Calls into NLTK
(`sent_tokenize`, `pos_tag`) are modelled by an explicit oracle parameter,
because NLTK is an external collaborator of the repository.
-/

/-! ## A tiny regex engine (Brzozowski derivatives)

The Python sources use `re` heavily.  We embed each pattern that the
claims exercise as a value of the following regular-expression type and
decide matching by derivatives.  `re.match(p, s)` is "a prefix of `s`
matches `p`", `re.search(p, s)` is "some substring of `s` matches `p`",
`re.fullmatch`-style behaviour (patterns anchored with `^…$`) is plain
`reFull`.  Case-insensitive patterns are matched against the lowercased
subject with lowercased literals.  Word boundaries `\b` and the few
lookarounds that occur are resolved structurally at the use site, with a
comment each time. -/

inductive RE where
  | emp : RE
  | eps : RE
  | cls : (Char → Bool) → RE
  | cat : RE → RE → RE
  | alt : RE → RE → RE
  | star : RE → RE

namespace RE

/-- Smart concatenation (keeps derivatives small). -/
def mkCat : RE → RE → RE
  | emp, _ => emp
  | _, emp => emp
  | eps, b => b
  | a, eps => a
  | a, b => cat a b

/-- Smart alternation. -/
def mkAlt : RE → RE → RE
  | emp, b => b
  | a, emp => a
  | a, b => alt a b

def nullable : RE → Bool
  | emp => false
  | eps => true
  | cls _ => false
  | cat a b => nullable a && nullable b
  | alt a b => nullable a || nullable b
  | star _ => true

def deriv : RE → Char → RE
  | emp, _ => emp
  | eps, _ => emp
  | cls p, c => if p c then eps else emp
  | cat a b, c =>
      if nullable a then mkAlt (mkCat (deriv a c) b) (deriv b c)
      else mkCat (deriv a c) b
  | alt a b, c => mkAlt (deriv a c) (deriv b c)
  | star a, c => mkCat (deriv a c) (star a)

/-- Does `r` match the whole character list? -/
def fullL (r : RE) (cs : List Char) : Bool :=
  nullable (cs.foldl deriv r)

/-- Does `r` match the whole string? -/
def full (r : RE) (s : String) : Bool := fullL r s.toList

end RE

/-- Single-character literal. -/
def chr (c : Char) : RE := RE.cls (fun d => d = c)

/-- Any single character (regex `.` with `re.DOTALL`; the embedded subjects
contain no newlines where the distinction would matter). -/
def anyCh : RE := RE.cls (fun _ => true)

/-- `.*` -/
def dotStar : RE := RE.star anyCh

/-- String literal. -/
def lit (s : String) : RE := s.toList.foldr (fun c r => RE.mkCat (chr c) r) RE.eps

def reOpt (r : RE) : RE := RE.mkAlt RE.eps r

def rePlus (r : RE) : RE := RE.mkCat r (RE.star r)

/-- `r{n}` -/
def reRep (r : RE) : Nat → RE
  | 0 => RE.eps
  | n + 1 => RE.mkCat r (reRep r n)

/-- `r{0,n}` (as `(r?){n}`, same language). -/
def reRepAtMost (r : RE) (n : Nat) : RE := reRep (reOpt r) n

/-- `r{lo,hi}` -/
def reRepRange (r : RE) (lo hi : Nat) : RE :=
  RE.mkCat (reRep r lo) (reRepAtMost r (hi - lo))

def reAltL : List RE → RE := fun l => l.foldr RE.mkAlt RE.emp

def reCatL : List RE → RE := fun l => l.foldr RE.mkCat RE.eps

/-- `re.match p s` — a prefix of `s` matches `p`. -/
def reMatch (p : RE) (s : String) : Bool := RE.full (RE.mkCat p dotStar) s

/-- `re.search p s` — some substring of `s` matches `p` (for patterns
without anchors; anchored patterns are encoded explicitly at use sites). -/
def reSearch (p : RE) (s : String) : Bool :=
  RE.full (RE.mkCat dotStar (RE.mkCat p dotStar)) s

/-! ## Character classes (Python `re` semantics, ASCII as used by the repo) -/

/-- Python `\s` (ASCII part; the repo's subjects are ASCII). -/
def isWsC (c : Char) : Bool :=
  c = ' ' || c = '\t' || c = '\n' || c = '\r' || c = '\x0b' || c = '\x0c'

def isDigitC (c : Char) : Bool := c.isDigit

/-- Python `\w` (ASCII). -/
def isWordC (c : Char) : Bool := c.isAlphanum || c = '_'

def isAlphaC (c : Char) : Bool := c.isAlpha

def isLowerC (c : Char) : Bool := c.isLower

def isUpperC (c : Char) : Bool := c.isUpper

/-- A character class given by a list of characters. -/
def clsOf (cs : List Char) : RE := RE.cls (fun c => cs.contains c)

def reWs0 : RE := RE.star (RE.cls isWsC)

def reWs1 : RE := rePlus (RE.cls isWsC)

def reDigits1 : RE := rePlus (RE.cls isDigitC)

/-! ## Python string helpers -/

/-- Python `str.strip()` strips this whitespace (ASCII range). -/
def pyIsSpace (c : Char) : Bool := isWsC c

def pyStrip (s : String) : String :=
  String.mk (((s.toList.dropWhile pyIsSpace).reverse.dropWhile pyIsSpace).reverse)

def pyLStrip (s : String) : String := String.mk (s.toList.dropWhile pyIsSpace)

def pyRStrip (s : String) : String :=
  String.mk ((s.toList.reverse.dropWhile pyIsSpace).reverse)

/-- Helper for `pySplit`. -/
def pySplitGo : List Char → List Char → List String
  | [], cur => if cur.isEmpty then [] else [String.mk cur.reverse]
  | c :: cs, cur =>
      if pyIsSpace c then
        if cur.isEmpty then pySplitGo cs [] else String.mk cur.reverse :: pySplitGo cs []
      else pySplitGo cs (c :: cur)

/-- Python `str.split()` (split on whitespace runs, dropping empties). -/
def pySplit (s : String) : List String := pySplitGo s.toList []

def charsStartWith : List Char → List Char → Bool
  | _, [] => true
  | [], _ :: _ => false
  | c :: cs, d :: ds => c = d && charsStartWith cs ds

def charsContainAux (needle : List Char) : List Char → Bool
  | [] => needle.isEmpty
  | c :: cs => charsStartWith (c :: cs) needle || charsContainAux needle cs

/-- Python `sub in s`. -/
def strContains (s sub : String) : Bool := charsContainAux sub.toList s.toList

/-- Python `s.startswith(p)`. -/
def strStartsWith (s p : String) : Bool := charsStartWith s.toList p.toList

/-- Python `s.endswith(p)`. -/
def strEndsWith (s p : String) : Bool :=
  charsStartWith s.toList.reverse p.toList.reverse

/-- Python `s.lower()` (ASCII). -/
def pyLower (s : String) : String := String.mk (s.toList.map Char.toLower)

/-- Python `s.isdigit()` (ASCII digits, as in the repo's subjects). -/
def pyIsDigitStr (s : String) : Bool :=
  !s.toList.isEmpty && s.toList.all isDigitC

/-- Python `s.isupper()`: at least one cased character and no lowercase one. -/
def pyIsUpper (s : String) : Bool :=
  let cased := s.toList.filter (fun c => isUpperC c || isLowerC c)
  !cased.isEmpty && cased.all isUpperC

/-- Helper for `pyIsTitle`: walk characters tracking whether the previous
character was cased; cased runs must start uppercase and continue lowercase. -/
def pyIsTitleGo : List Char → Bool → Bool → Bool
  | [], _, seen => seen
  | c :: cs, prevCased, seen =>
      if isUpperC c then
        if prevCased then false else pyIsTitleGo cs true true
      else if isLowerC c then
        if prevCased then pyIsTitleGo cs true true else false
      else pyIsTitleGo cs false seen

/-- Python `s.istitle()`. -/
def pyIsTitle (s : String) : Bool := pyIsTitleGo s.toList false false

/-! ## Rational numbers

Python floats are modelled by exact rationals.  (Every numeric constant in
the embedded sources is a short decimal, so exact rational arithmetic
agrees with the source's binary floating point on all inputs used in the
theorems below.)  We use our own rational type built on `Int`/`Nat` so
that every arithmetic operation reduces inside the kernel: values are kept
gcd-normalized with a positive denominator. -/

structure Q where
  num : Int
  den : Nat
deriving DecidableEq, Repr

/-- Normalize `n / d` (with `d : Nat`). -/
def Q.norm (n : Int) (d : Nat) : Q :=
  if d = 0 then ⟨0, 1⟩
  else
    let g := Nat.gcd n.natAbs d
    ⟨n / (g : Int), d / g⟩

instance : OfNat Q n := ⟨⟨n, 1⟩⟩

instance : NatCast Q := ⟨fun n => ⟨n, 1⟩⟩

instance : IntCast Q := ⟨fun n => ⟨n, 1⟩⟩

/-- Decimal literals: `0.9 = 9/10` etc. -/
instance : OfScientific Q :=
  ⟨fun m b e => if b then Q.norm m (10 ^ e) else ⟨m * 10 ^ e, 1⟩⟩

instance : Add Q :=
  ⟨fun a b => Q.norm (a.num * b.den + b.num * a.den) (a.den * b.den)⟩

instance : Sub Q :=
  ⟨fun a b => Q.norm (a.num * b.den - b.num * a.den) (a.den * b.den)⟩

instance : Mul Q := ⟨fun a b => Q.norm (a.num * b.num) (a.den * b.den)⟩

instance : Neg Q := ⟨fun a => ⟨-a.num, a.den⟩⟩

/-- Reciprocal (`0` for `0`, matching the total-division convention; every
division in the embedded code is either guarded to be nonzero or carries a
`+ 1e-8` summand). -/
def Q.inv (a : Q) : Q :=
  if a.num > 0 then ⟨(a.den : Int), a.num.natAbs⟩
  else if a.num < 0 then ⟨-(a.den : Int), a.num.natAbs⟩
  else ⟨0, 1⟩

instance : Div Q := ⟨fun a b => a * b.inv⟩

instance : LE Q := ⟨fun a b => a.num * (b.den : Int) ≤ b.num * (a.den : Int)⟩

instance : LT Q := ⟨fun a b => a.num * (b.den : Int) < b.num * (a.den : Int)⟩

instance (a b : Q) : Decidable (a ≤ b) :=
  inferInstanceAs (Decidable (a.num * (b.den : Int) ≤ b.num * (a.den : Int)))

instance (a b : Q) : Decidable (a < b) :=
  inferInstanceAs (Decidable (a.num * (b.den : Int) < b.num * (a.den : Int)))

theorem Q.le_refl (a : Q) : a ≤ a := Int.le_refl _

theorem Q.le_of_not_le {a b : Q} (h : ¬ a ≤ b) : b ≤ a :=
  Int.le_of_lt (Int.lt_of_not_ge h)

/-- Python `max(0, x)` and friends. -/
def qmax (a b : Q) : Q := if a ≤ b then b else a

def qmin (a b : Q) : Q := if a ≤ b then a else b

/-- Python `abs`. -/
def qabs (a : Q) : Q := if a < 0 then -a else a

theorem qmax_left_le (a b : Q) : a ≤ qmax a b := by
  unfold qmax
  split
  · assumption
  · exact Q.le_refl a

example : pyStrip "  a b " = "a b" := by decide
example : pySplit " 1.2  Methodology " = ["1.2", "Methodology"] := by decide
example : pyIsTitle "1.2 Methodology" = true := by decide
example : pyIsUpper "SECTION ONE" = true := by decide
example : strContains "abcdef" "cde" = true := by decide
example : reMatch (reCatL [reDigits1, chr '.', reDigits1]) "1.2 M" = true := by decide
example : reSearch (lit "cont") "discontinuity" = true := by decide

/-! ## Pattern tables — `src/processor/text_patterns.py`

Each Python pattern is transcribed as an `RE`; case-insensitive patterns are
matched against the lowercased subject with lowercased literals, classes
`[A-Z]`/`[a-z]` becoming "any letter" there. -/

/-- Letters-or-specific-chars class helper. -/
def clsLetterOr (extra : List Char) : RE :=
  RE.cls (fun c => isAlphaC c || extra.contains c)

/-- `ENUMERATED_BULLETS_RE = (?:(?:\d{1,3}|[a-z][A-Z])\.?){1,3}`, used with
`re.match`. -/
def enumeratedBulletsMatch (s : String) : Bool :=
  let unit := RE.mkCat
    (RE.mkAlt (reRepRange (RE.cls isDigitC) 1 3)
              (RE.mkCat (RE.cls isLowerC) (RE.cls isUpperC)))
    (reOpt (chr '.'))
  reMatch (reRepRange unit 1 3) s

/-- `UNICODE_BULLETS_RE = (?:B)(?!B)` where the alternation `B` contains the
empty string (`UNICODE_BULLETS` has an `""` entry, text_patterns.py line 43),
so the negative lookahead `(?!B)` fails at every position and the pattern can
never match.  `UNICODE_BULLETS_RE_0W = (?=B)(?<!B)` fails the same way: `B`
matches the empty string ending at any position, so `(?<!B)` always fails. -/
def unicodeBulletsMatch (_s : String) : Bool := false

def unicodeBullets0WMatch (_s : String) : Bool := false

/-- `REFERENCE_PATTERN = \[(?:[\d]+|[a-z]|[ivxlcdm])\]` (searched;
`[ivxlcdm] ⊆ [a-z]` is redundant). -/
def referenceSearch (s : String) : Bool :=
  reSearch (reCatL [chr '[',
    RE.mkAlt reDigits1 (RE.cls isLowerC), chr ']']) s

/-- The seven branches of `PAGE_NUMBER_PATTERNS`, each anchored `^…$`;
`PAGE_NUMBER_RE` is their alternation compiled with `re.IGNORECASE` and used
with `re.match`, hence: lowercase the subject and full-match any branch. -/
def pageNumberMatch (s : String) : Bool :=
  let t := pyLower s
  RE.full reDigits1 t ||
  RE.full (reCatL [chr '-', reWs0, reDigits1, reWs0, chr '-']) t ||
  RE.full (reCatL [chr '[', reDigits1, chr ']']) t ||
  RE.full (reCatL [lit "page", reWs1, reDigits1]) t ||
  RE.full (reCatL [lit "page", reWs1, reDigits1, reWs1, lit "of", reWs1, reDigits1]) t ||
  RE.full (reCatL [reDigits1, reWs0, chr '/', reWs0, reDigits1]) t ||
  RE.full (reCatL [chr 'p', reOpt (chr '.'), reWs0, reDigits1]) t

/-- `FOOTER_PATTERNS` under `re.IGNORECASE` and `re.search` (the `^…$`
branches can only match the whole subject). -/
def footerSearch (s : String) : Bool :=
  let t := pyLower s
  strContains t "confidential" ||
  reSearch (reCatL [lit "all", reWs1, lit "rights", reWs1, lit "reserved"]) t ||
  reSearch (reCatL [lit "internal", reWs1, lit "use", reWs1, lit "only"]) t ||
  reSearch (reCatL [lit "copyright", reWs1, reRep (RE.cls isDigitC) 4]) t ||
  reSearch (reCatL [lit "page", reWs1, reDigits1, reWs1, lit "of", reWs1, reDigits1]) t ||
  RE.full reDigits1 t ||
  RE.full (reCatL [chr '-', reWs0, reDigits1, reWs0, chr '-']) t ||
  RE.full (reCatL [chr '[', reDigits1, chr ']']) t ||
  RE.full (reCatL [lit "page", reWs1, reDigits1]) t ||
  RE.full (reCatL [lit "page", reWs1, reDigits1, reWs1, lit "of", reWs1, reDigits1]) t

/-- `TITLE_PATTERNS` (text_patterns.py), alternation compiled with
`re.IGNORECASE`, used with `.search`; every branch is `^`-anchored, two are
also `$`-anchored. -/
def titleReSearch (s : String) : Bool :=
  let t := pyLower s
  let letter := RE.cls isAlphaC
  reMatch (reCatL [reAltL [lit "chapter", lit "section", lit "appendix"],
    reWs1, reDigits1]) t ||
  reMatch (reCatL [reAltL [lit "table", lit "figure", lit "appendix"],
    reWs1, reDigits1, clsOf ['-', '.', ':'], reWs0]) t ||
  RE.full (reAltL [lit "table of contents", lit "index", lit "glossary",
    lit "references", lit "bibliography"]) t ||
  reMatch (reCatL [reDigits1, chr '.', reDigits1, reWs1, letter]) t ||
  reMatch (reCatL [lit "item", reWs1, reDigits1, reOpt letter, chr '.']) t ||
  RE.full (reCatL [reRep (clsLetterOr [' ', '\t', '\n', '\r', '\x0b', '\x0c']) 10,
    RE.star (clsLetterOr [' ', '\t', '\n', '\r', '\x0b', '\x0c'])]) t

/-- `HEADER_PATTERNS` (text_analysis.py lines 57–64), alternation compiled
with `re.IGNORECASE`, `.search`ed against `text.lower()`; all branches are
`^`-anchored. -/
def headerFooterSearch (lowered : String) : Bool :=
  let letter := RE.cls isAlphaC
  RE.full (reCatL [letter, RE.star (RE.cls (fun c =>
    isAlphaC c || isDigitC c || c = ' ' || c = '_' || c = '-'))]) lowered ||
  RE.full (reCatL [letter, rePlus letter,
    RE.star (reCatL [reWs1, letter, rePlus letter])]) lowered ||
  reMatch (reCatL [rePlus (clsOf ['i', 'v', 'x']), reOpt (chr '.'),
    reWs1, letter]) lowered ||
  reMatch (reCatL [reDigits1, chr '.', reWs1, letter]) lowered ||
  RE.full (reCatL [letter, RE.star (RE.cls (fun c =>
    isAlphaC c || isDigitC c || c = ' ')), chr ':']) lowered ||
  RE.full (reAltL [lit "introduction", lit "abstract", lit "acknowledgment",
    lit "acknowledgments", lit "references", lit "appendix", lit "glossary",
    lit "index", lit "contents", lit "table of contents",
    lit "list of figures", lit "list of tables"]) lowered

/-- `US_PHONE_NUMBERS_PATTERN`, `.search`ed.  The pattern is anchored at the
end by `\s*$`, so a search is a full match of `.*` followed by the body. -/
def usPhoneSearch (s : String) : Bool :=
  let body := reCatL [
    reOpt (RE.mkCat (reOpt (chr '+')) (reRepRange (RE.cls isDigitC) 1 3)),
    RE.star (clsOf ['-', '.', ' ', '(']),
    reOpt (reRep (RE.cls isDigitC) 3),
    RE.star (clsOf ['-', '.', ' ', ')']),
    reRep (RE.cls isDigitC) 3,
    RE.star (clsOf ['-', '.', ' ']),
    reRep (RE.cls isDigitC) 4,
    reOpt (reCatL [RE.star (chr ' '), chr 'x', reDigits1]),
    reWs0]
  RE.full (RE.mkCat dotStar body) s

/-- `EMAIL_ADDRESS_PATTERN = [a-z0-9\.\-+_]+@[a-z0-9\.\-+_]+\.[a-z]+`,
compiled case-sensitively and used with `.match`. -/
def emailMatch (s : String) : Bool :=
  let atom := rePlus (RE.cls (fun c =>
    isLowerC c || isDigitC c || c = '.' || c = '-' || c = '+' || c = '_'))
  reMatch (reCatL [atom, chr '@', atom, chr '.', rePlus (RE.cls isLowerC)]) s

/-- The two state alternations of `US_CITY_STATE_ZIP_PATTERN`.  The braces in
the source are literal characters inside the `re` alternation, so the
branches are literally `{alabama`, `alaska`, …, `wyoming}`, `{al`, `ak`, …,
`wy}` (case-insensitive). -/
def uszStateBranches : List String :=
  ["\x7balabama", "alaska", "arizona", "arkansas", "california", "colorado",
   "connecticut", "delaware", "florida", "georgia", "hawaii", "idaho",
   "illinois", "indiana", "iowa", "kansas", "kentucky", "louisiana", "maine",
   "maryland", "massachusetts", "michigan", "minnesota", "mississippi",
   "missouri", "montana", "nebraska", "nevada", "new hampshire", "new jersey",
   "new mexico", "new york", "north carolina", "north dakota", "ohio",
   "oklahoma", "oregon", "pennsylvania", "rhode island", "south carolina",
   "south dakota", "tennessee", "texas", "utah", "vermont", "virginia",
   "washington", "west virginia", "wisconsin", "\x7bal", "ak", "as", "az", "ar",
   "ca", "co", "ct", "de", "dc", "fm", "fl", "ga", "gu", "hi", "id", "il",
   "in", "ia", "ks", "ky", "la", "me", "mh", "md", "ma", "mi", "mn", "ms",
   "mo", "mt", "ne", "nv", "nh", "nj", "nm", "ny", "nc", "nd", "mp", "oh",
   "ok", "or", "pw", "pa", "pr", "ri", "sc", "sd", "tn", "tx", "ut", "vt",
   "vi", "va", "wa", "wv", "wi"]

/-- The branches that end in a literal `}` (hence in a non-word character):
`wyoming}` and `wy}`. -/
def uszStateBraceBranches : List String := ["wyoming\x7d", "wy\x7d"]

/-- `US_CITY_STATE_ZIP_RE.match` (pattern has inline `(?i)`).  Word
boundaries are resolved structurally: the leading `\b` is subsumed by the
following letter at match position 0; the `\b` before `\d{5}` holds exactly
when the optional separator `(, |\s)?` was taken (its last character is a
non-word space) or the state branch ended in the literal `}`; the trailing
`\b` requires the next character (if any) to be a non-word character. -/
def usCityStateZipMatch (s : String) : Bool :=
  let t := pyLower s
  let letter := RE.cls isAlphaC
  let namePart := reCatL [letter, reRepRange (clsLetterOr ['.', '-']) 1 15,
    reOpt (chr ' ')]
  let states := reAltL ((uszStateBranches ++ uszStateBraceBranches).map lit)
  let statesRbrace := reAltL (uszStateBraceBranches.map lit)
  let sep := RE.mkAlt (lit ", ") (RE.cls isWsC)
  let zip := reCatL [reRep (RE.cls isDigitC) 5,
    reOpt (RE.mkCat (chr '-') (reRep (RE.cls isDigitC) 4))]
  let bTail := RE.mkAlt RE.eps (RE.mkCat (RE.cls (fun c => !isWordC c)) dotStar)
  let body := reCatL [reRepRange namePart 1 5, chr ',', reOpt (RE.cls isWsC),
    RE.mkAlt (reCatL [states, sep, zip]) (reCatL [statesRbrace, zip]),
    bTail]
  RE.full body t

/-! ## `src/processor/text_analysis.py` -/

/-- NLTK is an external collaborator (out of scope per the spec); its two
entry points used by the embedded code are abstracted as an oracle. -/
structure NlpOracle where
  sentCount : String → Nat
  hasVerb : String → Bool

/-- A concrete oracle instance used in closed witness statements.  Sentences
are counted as maximal runs separated by `.`/`!`/`?` followed by whitespace
(a reasonable stand-in for `sent_tokenize`); the theorems that use it are
insensitive to the oracle except where stated. -/
def simpleSentCountGo : List Char → Bool → Nat
  | [], _ => 0
  | c :: cs, brk =>
      if (c = '.' || c = '!' || c = '?') then simpleSentCountGo cs true
      else if brk && pyIsSpace c then 1 + simpleSentCountGo cs false
      else simpleSentCountGo cs false

def defaultOracle : NlpOracle where
  sentCount := fun s => if pyStrip s = "" then 0 else 1 + simpleSentCountGo s.toList false
  hasVerb := fun s => strContains (pyLower s) " is " || strContains (pyLower s) " are "

/-- `contains_verb` (text_analysis.py lines 69–74): lowercases an all-caps
text and consults the POS tagger. -/
def contains_verb (o : NlpOracle) (text : String) : Bool :=
  o.hasVerb (if pyIsUpper text then pyLower text else text)

structure TextStats where
  alpha_ratio : Q
  cap_ratio : Q
  special_ratio : Q
  word_count : Nat
  sentence_count : Nat
  avg_word_length : Q
  has_verb : Bool
  is_title_case : Bool
  is_all_caps : Bool

def head_is_upper (s : String) : Bool :=
  match s.toList with
  | [] => false
  | c :: _ => isUpperC c

/-- `get_text_stats` (text_analysis.py lines 89–143). -/
def get_text_stats (o : NlpOracle) (text : String) : TextStats :=
  if text = "" then
    ⟨0, 0, 0, 0, 0, 0, false, false, false⟩
  else
    let chars := text.toList.filter (fun c => !pyIsSpace c)
    let alpha_chars := chars.filter isAlphaC
    let special_chars := chars.filter (fun c => !(c.isAlphanum || pyIsSpace c))
    let words := (pySplit text).filter (fun w => w.toList.any isAlphaC)
    let word_count := words.length
    let alpha_ratio : Q :=
      if chars.isEmpty then 0 else (alpha_chars.length : Q) / (chars.length : Q)
    let cap_words := words.filter (fun w => head_is_upper w || pyIsUpper w)
    let cap_ratio : Q :=
      if word_count > 0 then (cap_words.length : Q) / (word_count : Q) else 0
    let special_ratio : Q :=
      if chars.isEmpty then 0 else (special_chars.length : Q) / (chars.length : Q)
    let avg_word_length : Q :=
      if word_count > 0 then
        ((words.map (fun w => w.toList.length)).sum : Q) / (word_count : Q)
      else 0
    { alpha_ratio := alpha_ratio
      cap_ratio := cap_ratio
      special_ratio := special_ratio
      word_count := word_count
      sentence_count := o.sentCount text
      avg_word_length := avg_word_length
      has_verb := contains_verb o text
      is_title_case := pyIsTitle text
      is_all_caps := pyIsUpper text }

/-- The style-info dictionary (only the keys the embedded code reads). -/
structure StyleInfo where
  font_size : Option Q := none
  size : Option Q := none
  is_bold : Option Bool := none
  is_italic : Option Bool := none
  italic : Option Bool := none
  font_name : Option String := none
  font : Option String := none
  median_font_size : Option Q := none
  y_position : Option Q := none
  page_height : Option Q := none
  page_width : Option Q := none
deriving DecidableEq

/-- `^(\d+(?:\.\d+)+)\s+[A-Z]` (element_classifier.py line 82 and
text_analysis.py line 163), `re.match`, case-sensitive. -/
def sectionNumberTitleMatch (s : String) : Bool :=
  reMatch (reCatL [reDigits1, rePlus (RE.mkCat (chr '.') reDigits1),
    reWs1, RE.cls isUpperC]) s

/-- `caption_indicators` (text_analysis.py lines 168–177). -/
def captionIndicators : List String :=
  ["figure", "fig", "table", "chart", "diagram", "illustration",
   "image", "photo", "source:", "credit:", "caption:", "plate", "graph",
   "exhibit", "panel", "drawing", "sketch", "picture",
   "map", "photograph", "photo", "equation", "formula", "algorithm",
   "code", "example", "program", "script", "schematic", "flowchart",
   "graphic", "visualization", "plot", "listing",
   "left:", "right:", "top:", "bottom:", "source:", "from:", "courtesy of",
   "©", "copyright", "credit", "photograph by", "image by", "photo by"]

/-- The three `caption_patterns` of `is_possible_title` (text_analysis.py
lines 184–188), searched in `text_lower`. -/
def titleCaptionPatternsSearch (tl : String) : Bool :=
  let figWords := reAltL [lit "fig", lit "fig.", lit "figure", lit "table",
    lit "chart", lit "diagram", lit "image", lit "photo"]
  reSearch (reCatL [figWords, reWs0, reDigits1,
    RE.star (RE.mkCat (chr '.') reDigits1), reOpt (clsOf ['.', ':'])]) tl ||
  reMatch (reCatL [RE.cls isAlphaC, reWs0, reDigits1, clsOf ['.', ':']]) tl ||
  reMatch (reCatL [reOpt (chr '('), RE.cls isAlphaC, reWs0, reDigits1,
    reOpt (clsOf ['.', ':']), reWs0, RE.cls (fun c => !isLowerC c)]) tl

/-- `is_possible_title` (text_analysis.py lines 145–267). -/
def is_possible_title (o : NlpOracle) (text0 : String)
    (style? : Option StyleInfo) : Bool × Q :=
  if text0 = "" || text0.toList.length < 2 then (false, 0)
  else
    let text := pyStrip text0
    let stats := get_text_stats o text
    let c0 : Q := 0
    let c1 := if sectionNumberTitleMatch text then c0 + 0.8 else c0
    let text_lower := pyLower text
    if captionIndicators.any (fun ind => strContains text_lower ind) then (false, 0)
    else if titleCaptionPatternsSearch text_lower then (false, 0)
    else if stats.word_count > 12 then (false, 0)
    else
      let c2 := if stats.word_count ≤ 1 then c1 + 0.1 else c1
      let c3 := if titleReSearch text && stats.word_count > 1 then c2 + 0.3 else c2
      let c4 :=
        match style? with
        | none => c3
        | some style =>
            let font_size := style.font_size.getD 0
            let median_size := style.median_font_size.getD 12
            let size_ratio : Q := if median_size > 0 then font_size / median_size else 1
            let ca := if size_ratio > 1.5 then c3 + 0.4
                      else if size_ratio > 1.3 then c3 + 0.2
                      else if size_ratio > 1.1 then c3 + 0.1
                      else c3
            let cb := if style.is_bold.getD false && size_ratio > 1.2 then ca + 0.2
                      else if style.is_bold.getD false then ca + 0.1
                      else ca
            if style.is_italic.getD false then cb - 0.1 else cb
      let c5 := if stats.alpha_ratio < 0.5 then c4 - 0.2 else c4
      let c6 := if stats.is_title_case && stats.word_count > 1 then c5 + 0.3
                else if text ≠ "" && head_is_upper text then c5 + 0.1
                else c5
      let c7 := if strContains text ":" && stats.word_count < 4 then c6 - 0.3 else c6
      let c8 := qmax 0 (qmin 1 c7)
      let c9 := if stats.cap_ratio > 0.7 then c8 + 0.15 else c8
      let c10 := if stats.special_ratio > 0.3 then c9 - 0.2 else c9
      let c11 :=
        match style? with
        | none => c10
        | some style =>
            match style.y_position with
            | none => c10
            | some y => if y < 0.15 || y > 0.9 then c10 + 0.1 else c10
      let c12 := if stats.sentence_count > 1 then c11 - 0.2 else c11
      let c13 := if strEndsWith text "." || strEndsWith text "!" || strEndsWith text "?"
                 then c12 - 0.1 else c12
      (c13 > 0.35, qmin 1 (qmax 0 c13))

/-- `is_list_item` (text_analysis.py lines 293–344). -/
def is_list_item (text0 : String) : Bool :=
  if text0 = "" || pyStrip text0 = "" then false
  else
    let text := pyStrip text0
    if unicodeBulletsMatch text || unicodeBullets0WMatch text then true
    else
      let words := pySplit text
      let fw := words.headD ""
      if enumeratedBulletsMatch fw && words.length > 1 then
        if (fw.toList.filter (fun c => c = '.')).length > 1 then false
        else if strContains fw "." && fw.toList.length > 2 then false
        else if strContains fw ")" || strContains fw "]" then false
        else
          let rest := pyStrip (String.mk (text.toList.drop fw.toList.length))
          if rest ≠ "" && head_is_upper rest then false else true
      else if reMatch (reCatL [RE.cls isAlphaC, clsOf ['.', ')'], reWs1]) text then
        let rest := pyStrip (String.mk (text.toList.drop 2))
        if rest ≠ "" && head_is_upper rest then false else true
      else false

/-- `is_header_footer` (text_analysis.py line 346). -/
def is_header_footer (text : String) : Bool := headerFooterSearch (pyLower text)

/-- `is_footnote` (line 350). -/
def is_footnote (text : String) : Bool := referenceSearch (pyStrip text)

/-- `is_page_number` (line 353). -/
def is_page_number (text : String) : Bool := pageNumberMatch (pyStrip text)

/-- `is_footer` (line 356). -/
def is_footer (text : String) : Bool := footerSearch (pyStrip text)

/-- `is_contact_info` (lines 359–365). -/
def is_contact_info (text0 : String) : Bool :=
  let text := pyStrip text0
  usCityStateZipMatch text || emailMatch text || usPhoneSearch text

/-! ## `src/processor/data_models.py` -/

/-- The canonical members of the Python `ElementType` enum.  The source also
declares alias names with equal values (`NARRATIVE_TEXT = "TEXT"`,
`PAGE_NUMBER = "TEXT"`, `UNKNOWN = "DISCARDED"`, …); by Python `Enum`
semantics an alias IS the canonical member, which we model as definitions
below. -/
inductive ElementType where
  | TITLE | TEXT | BLOCK_EQUATION
  | LIST_ITEM | LIST | INDEX
  | TABLE_BODY | TABLE_CAPTION | TABLE_FOOTNOTE
  | FIGURE | FIGURE_CAPTION | FIGURE_FOOTNOTE
  | DISCARDED
deriving DecidableEq, Repr

/-- Alias (`data_models.py` line 32): `NARRATIVE_TEXT = "TEXT"`. -/
def ElementType.NARRATIVE_TEXT : ElementType := ElementType.TEXT

/-- Alias (`data_models.py` line 35): `PAGE_NUMBER = "TEXT"` — the page-number
tag is the very same enum member as `TEXT`. -/
def ElementType.PAGE_NUMBER : ElementType := ElementType.TEXT

/-- Alias (`data_models.py` line 39): `CAPTION = "TEXT"`. -/
def ElementType.CAPTION : ElementType := ElementType.TEXT

/-- Alias (`data_models.py` line 40): `UNKNOWN = "DISCARDED"`. -/
def ElementType.UNKNOWN : ElementType := ElementType.DISCARDED

/-- `str(member).lower()` as used by the classifier's substring tests. -/
def ElementType.strLower : ElementType → String
  | .TITLE => "elementtype.title"
  | .TEXT => "elementtype.text"
  | .BLOCK_EQUATION => "elementtype.block_equation"
  | .LIST_ITEM => "elementtype.list_item"
  | .LIST => "elementtype.list"
  | .INDEX => "elementtype.index"
  | .TABLE_BODY => "elementtype.table_body"
  | .TABLE_CAPTION => "elementtype.table_caption"
  | .TABLE_FOOTNOTE => "elementtype.table_footnote"
  | .FIGURE => "elementtype.figure"
  | .FIGURE_CAPTION => "elementtype.figure_caption"
  | .FIGURE_FOOTNOTE => "elementtype.figure_footnote"
  | .DISCARDED => "elementtype.discarded"

/-- A bounding box `(x0, y0, x1, y1)`. -/
structure Box where
  x0 : Q
  y0 : Q
  x1 : Q
  y1 : Q
deriving DecidableEq, Repr

/-- `CoordinatesMetadata` with its `__post_init__` (the relative fields are
filled in only when both page dimensions are truthy, i.e. nonzero). -/
structure Coords where
  x0 : Q
  y0 : Q
  x1 : Q
  y1 : Q
  page_width : Q
  page_height : Q
  relative_x : Q := 0
  relative_y : Q := 0
  indent_ratio : Q := 0
deriving DecidableEq

def mkCoords (x0 y0 x1 y1 w h : Q) : Coords :=
  if w ≠ 0 ∧ h ≠ 0 then
    { x0 := x0, y0 := y0, x1 := x1, y1 := y1, page_width := w, page_height := h,
      relative_x := x0 / w, relative_y := y0 / h, indent_ratio := x0 / w }
  else
    { x0 := x0, y0 := y0, x1 := x1, y1 := y1, page_width := w, page_height := h }

structure ElementMetadata where
  style_info : StyleInfo := {}
  coordinates : Option Coords := none
  list_group_id : Option Nat := none
  confidence : Q := 0
  table_data : Bool := false
deriving DecidableEq

structure Element where
  text : String
  element_type : ElementType
  bbox : Box
  page_number : Nat
  metadata : ElementMetadata := {}
deriving DecidableEq

/-! ## `src/processor/caption_detector.py` — `is_likely_caption`

The module imports only `CoordinatesMetadata` from `data_models`; the name
`ElementType` used on line 237 (`if prev_type == ElementType.CAPTION`) is
unbound, so the comparison raises `NameError`.  Line 237 is reached on every
call in which `elements_before` is non-empty and the guards of lines 27–44
did not already return, because no statement in between returns or raises.
The embedding therefore yields `Except.error ()` exactly in that case; the
confidence accumulated up to that point (lines 30–234) is discarded by the
exception, so only the `elements_before = []` scoring path — embedded in
full below — produces a value. -/

structure PageInfo where
  width : Q
  height : Q
  median_font_size : Option Q := none
deriving DecidableEq

/-- `CAPTION_PATTERNS` (text_patterns.py lines 90–95), compiled with
`re.IGNORECASE` and `.search`ed; every branch is `^`-anchored. -/
def captionReSearch (s : String) : Bool :=
  let t := pyLower s
  let words1 := reAltL [lit "figure", lit "fig", lit "fig.", lit "table",
    lit "chart", lit "diagram", lit "image", lit "photo", lit "illustration",
    RE.mkCat (reAltL [lit "fig", lit "fig."]) (RE.mkCat reWs0 reDigits1)]
  let words2 := reAltL [lit "figure", lit "fig", lit "fig.", lit "table",
    lit "chart", lit "diagram", lit "image", lit "photo", lit "illustration"]
  reMatch (reCatL [words1, reOpt (clsOf [':', '.']), reWs0]) t ||
  reMatch (reCatL [reWs0, reOpt (chr '('), reWs0, words2, reWs0, reDigits1,
    reWs0, reOpt (chr ')'), reWs0, reOpt (clsOf [':', '.', '-']), reWs0]) t ||
  reMatch (reCatL [reWs0, reOpt (chr '['), reWs0, words2, reWs0, reDigits1,
    reWs0, reOpt (chr ']'), reWs0, reOpt (clsOf [':', '.', '-']), reWs0]) t ||
  reMatch (reCatL [reWs0, reDigits1, reWs0, reOpt (clsOf [':', '.', '-']),
    reWs0, RE.cls isAlphaC]) t

/-- Left word boundary for a branch starting with a word character:
start of subject or a preceding non-word character. -/
def bLeft : RE := RE.mkAlt RE.eps (RE.mkCat dotStar (RE.cls (fun c => !isWordC c)))

/-- Right word boundary for a branch ending with a word character:
end of subject or a following non-word character. -/
def bRight : RE := RE.mkAlt RE.eps (RE.mkCat (RE.cls (fun c => !isWordC c)) dotStar)

/-- The long word list of the first and fourth `caption_phrases` patterns
(caption_detector.py lines 140 and 146). -/
def captionPhraseWords : List String :=
  ["figure", "table", "chart", "diagram", "image", "photo", "graph",
   "illustration", "plate", "exhibit", "panel", "drawing", "sketch",
   "picture", "map", "photograph", "equation", "formula", "algorithm",
   "code", "example", "program", "script", "schematic", "flowchart",
   "graphic", "visualization", "plot", "listing"]

/-- `caption_phrases` pattern 1: `^(?:fig(?:ure)?|…)\s*[0-9a-z]` (searched,
`^`-anchored, case-insensitive on the already-lowercase subject). -/
def capPhrase1 (tl : String) : Bool :=
  reMatch (reCatL [reAltL ((["fig"] ++ captionPhraseWords).map lit), reWs0,
    RE.cls (fun c => isDigitC c || isLowerC c)]) tl

/-- `caption_phrases` pattern 2: `\b(?:left|right|top|bottom|above|below|
center|middle|side|corner)\b` — both boundaries resolved as: preceded by
start-or-non-word, followed by end-or-non-word. -/
def capPhrase2 (tl : String) : Bool :=
  RE.full (reCatL [bLeft,
    reAltL ([ "left", "right", "top", "bottom", "above", "below", "center",
      "middle", "side", "corner"].map lit), bRight]) tl

/-- `caption_phrases` pattern 3: credit/source words with `\b` on both
sides.  `©` is itself a non-word character, so for that branch the Python
word boundaries demand a *word* character on each side. -/
def capPhrase3 (tl : String) : Bool :=
  RE.full (reCatL [bLeft,
    reAltL ([ "source", "credit", "from", "courtesy of", "photograph by",
      "image by", "photo by", "copyright", "credit line", "photo credit",
      "image credit", "courtesy", "permission", "reproduced from"].map lit),
    bRight]) tl ||
  RE.full (reCatL [dotStar, RE.cls isWordC, chr '©', RE.cls isWordC, dotStar]) tl

/-- `caption_phrases` pattern 4: `\b(caption|figure|…)[:.]?\s*[0-9a-z]`. -/
def capPhrase4 (tl : String) : Bool :=
  RE.full (reCatL [bLeft,
    reAltL ((["caption", "fig"] ++ captionPhraseWords).map lit),
    reOpt (clsOf [':', '.']), reWs0,
    RE.cls (fun c => isDigitC c || isLowerC c), dotStar]) tl

/-- `caption_number_patterns` (caption_detector.py lines 156–160),
`re.match` with `re.IGNORECASE` against the first three words. -/
def captionNumberMatch (s : String) : Bool :=
  let t := pyLower s
  reMatch (reCatL [reAltL ([ "fig", "figure", "table", "chart", "diagram",
      "image", "photo", "graph"].map lit), reWs0, reDigits1,
    RE.star (RE.mkCat (chr '.') reDigits1), reOpt (clsOf ['.', ':'])]) t ||
  reMatch (reCatL [RE.cls isAlphaC, reWs0, reDigits1, clsOf ['.', ':']]) t ||
  reMatch (reCatL [reOpt (chr '('), RE.cls (fun c => isAlphaC c || isDigitC c),
    reWs0, clsOf [')', ':']]) t

/-- Section-12 `caption_patterns` (caption_detector.py lines 243–248),
`re.search` with `re.IGNORECASE`; trailing `\b`s are resolved as
end-or-non-word. -/
def capSection12 (tl : String) : Bool :=
  let figWords := reAltL [lit "fig", lit "figure", lit "table", lit "chart",
    lit "diagram", lit "image", lit "photo"]
  reSearch (reCatL [figWords, reWs0, reDigits1,
    RE.star (RE.mkCat (chr '.') reDigits1), reOpt (clsOf ['.', ':'])]) tl ||
  RE.full (reCatL [reAltL [reCatL [lit "fig", reOpt (chr '.'), reWs0, reDigits1],
      reCatL [lit "table", reWs1, rePlus (clsOf ['i', 'v', 'x', 'c', 'l'])],
      reCatL [lit "fig", reWs0, RE.cls isLowerC]], bRight]) tl ||
  reMatch (reCatL [reWs0,
    reOpt (reCatL [rePlus (RE.cls isAlphaC), chr '.', reWs0]),
    reOpt (chr '('), reWs0,
    reAltL [lit "fig", lit "fig.", lit "figure", lit "table", lit "tab",
      lit "chart", lit "diag", lit "ill", lit "img", lit "photo"],
    reOpt (chr '.'), reWs0, reDigits1, reWs0, reOpt (chr ')')]) tl ||
  reMatch (reCatL [reWs0, reOpt (chr '['),
    reAltL [lit "fig", lit "figure", lit "table", lit "tab", lit "chart",
      lit "diagram", lit "illustration", lit "image", lit "photo"],
    reOpt (chr '.'), reWs0, reDigits1, reOpt (chr ']')]) tl

def creditIndicators : List String :=
  ["source:", "credit:", "courtesy of", "photograph by", "©", "copyright",
   "image by", "photo by", "courtesy", "from", "after", "modified from"]

def captionFinalPhrases : List String :=
  ["figure", "fig.", "table", "chart", "diagram", "illustration",
   "image", "photo", "source:", "credit:", "caption:"]

/-- The confidence accumulated by `is_likely_caption` for a call with
`elements_before = []` (sections 4, 8, 11 and 15 of the function are then
skipped; section 11 is the one that would raise `NameError`).  Returns the
final `(is_caption, confidence)` of lines 341–344.  `ind` counts the
appended reasons whose text contains one of the section-14 keywords
(`prefix/phrase/caption/figure/table/pattern/credit/source`); the reason
strings are fixed per site, so whether a site's reason counts is a constant
of that site. -/
def captionScoreNoPriors (text : String) (bbox : Box) (style : StyleInfo)
    (page : PageInfo) (elemsAfter : List Element) : Bool × Q :=
  let tl := pyLower text
  let words := pySplit text
  let wc := words.length
  -- section 1: CAPTION_RE on the first four words ("Starts with caption
  -- pattern: …" counts as an indicator)
  let firstFew := pyLower (String.intercalate " " (words.take 4))
  let s1 := captionReSearch firstFew
  let conf1 : Q := if s1 then 0.9 else 0
  let ind1 : Nat := if s1 then 1 else 0
  -- section 2 ("Appropriate length …", not an indicator)
  let conf2 := if 3 ≤ wc ∧ wc ≤ 100 then conf1 + 0.3 else conf1
  -- section 3 ("Centered position", not an indicator)
  let conf3 :=
    if page.width > 0 then
      let relCenter := ((bbox.x0 + bbox.x1) / 2) / page.width
      if 0.4 ≤ relCenter ∧ relCenter ≤ 0.6 then conf2 + 0.1 else conf2
    else conf2
  -- section 5: the four caption_phrases patterns, all tested ("Matches
  -- caption pattern: …" counts as an indicator each time)
  let p1 := capPhrase1 tl
  let p2 := capPhrase2 tl
  let p3 := capPhrase3 tl
  let p4 := capPhrase4 tl
  let conf5 := conf3 + (if p1 then (0.8 : Q) else 0) + (if p2 then 0.3 else 0)
      + (if p3 then 0.5 else 0) + (if p4 then 0.9 else 0)
  let ind5 : Nat := ind1 + (if p1 then 1 else 0) + (if p2 then 1 else 0)
      + (if p3 then 1 else 0) + (if p4 then 1 else 0)
  -- numbered caption patterns on the first three words (indicator)
  let num := captionNumberMatch (String.intercalate " " (words.take 3))
  let conf5n := if num then conf5 + 0.7 else conf5
  let ind5n := if num then ind5 + 1 else ind5
  -- section 6: font size vs median (not an indicator)
  let font_size := (style.size.getD (style.font_size.getD 0))
  let median_font := page.median_font_size.getD 12
  let conf6 :=
    if font_size > 0 ∧ median_font > 0 then
      let ratio := font_size / median_font
      if ratio < 0.9 then conf5n + 0.3
      else if ratio < 1.1 then conf5n + 0.1
      else conf5n - 0.1
    else conf5n
  -- section 7: italics
  let conf7 := if style.italic.getD false then conf6 + 0.2 else conf6
  -- section 9: initial capital (multi-word) and no closing punctuation
  let conf9a := if head_is_upper text ∧ wc > 1 then conf7 + 0.1 else conf7
  let lastC := text.toList.getLastD ' '
  let conf9 := if text ≠ "" ∧ ¬(lastC = '.' ∨ lastC = '!' ∨ lastC = '?')
               then conf9a + 0.1 else conf9a
  -- section 10: length penalties (both reasons contain the word "caption",
  -- hence count as indicators)
  let long1 := wc > 50 ∨ text.toList.length > 300
  let long2 := wc > 25
  let conf10 := if long1 then conf9 - 0.3 else if long2 then conf9 - 0.1 else conf9
  let ind10 := if long1 ∨ long2 then ind5n + 1 else ind5n
  -- section 12: first matching pattern only (indicator)
  let s12 := capSection12 tl
  let conf12 := if s12 then conf10 + 0.4 else conf10
  let ind12 := if s12 then ind10 + 1 else ind10
  -- section 13: credit indicators (indicator)
  let s13 := creditIndicators.any (fun i => strContains tl i)
  let conf13 := if s13 then conf12 + 0.3 else conf12
  let ind13 := if s13 then ind12 + 1 else ind12
  -- section 14: multi-indicator boost
  let conf14 := if ind13 ≥ 2 then conf13 + qmin 0.3 (0.15 * (ind13 : Q)) else conf13
  -- line 304 clamp
  let confA := qmin 1 (qmax 0 conf14)
  -- lines 312–318: final phrase list
  let confB := if captionFinalPhrases.any (fun p => strContains tl p)
               then confA + 0.4 else confA
  -- lines 320–322: single line bonus
  let confC := if ¬ strContains text "\n" then confB + 0.1 else confB
  -- lines 324–339: element following closely below
  let confD :=
    match elemsAfter with
    | [] => confC
    | nxt :: _ =>
        let vg := nxt.bbox.y0 - bbox.y1
        if 0 < vg ∧ vg < 10 then confC - 0.2 else confC
  -- line 342 clamp and line 344 result
  let conf := qmax 0 (qmin 1 confD)
  (conf > 0.5, conf)

/-- `is_likely_caption` (caption_detector.py lines 5–344), as an
`Except`-valued function: `.error ()` models the `NameError` raised at line
237 (`ElementType` is not imported in this module), which is reached
whenever `elements_before` is non-empty and the early guards of lines 27–44
did not return.  The confidence accumulated before the raise is discarded
by the exception, so it does not appear in the error case. -/
def is_likely_caption (text0 : String) (bbox : Box) (style : StyleInfo)
    (page : PageInfo) (elemsBefore elemsAfter : List Element) :
    Except Unit (Bool × Q) :=
  if pyStrip text0 = "" then .ok (false, 0)
  else
    let text := pyStrip text0
    let wc := (pySplit text).length
    if wc > 50 ∨ text.toList.length > 400 then .ok (false, 0)
    else if elemsBefore ≠ [] then .error ()
    else .ok (captionScoreNoPriors text bbox style page elemsAfter)

/-! ## `src/processor/element_classifier.py` — `classify_element` -/

/-- The document-statistics dictionary handed to `classify_element` as
`context` (only the key it reads). -/
structure DocContext where
  median_font_size : Option Q := none
deriving DecidableEq

/-- The figure-search loop of the classifier's caption step (lines 123–174):
walk up to four previous elements from the end, skipping text-typed, small,
far, or non-overlapping ones; return `some is_image_caption` when a
figure-like neighbour is found.  (Both success branches set
`is_image_caption = True`.) -/
def classifierFigureSearch (bbox : Box) : List Element → Option Bool
  | [] => none
  | prev :: rest =>
      let pb := prev.bbox
      -- skip text elements that are likely not figures
      if strContains prev.element_type.strLower "text" then
        classifierFigureSearch bbox rest
      else
        let w := pb.x1 - pb.x0
        let h := pb.y1 - pb.y0
        if w < 80 ∨ h < 60 then classifierFigureSearch bbox rest
        else
          let vg := bbox.y0 - pb.y1
          if vg < 0 ∨ vg > 60 then classifierFigureSearch bbox rest
          else
            let ow := qmax 0 (qmin bbox.x1 pb.x1 - qmax bbox.x0 pb.x0)
            let cw := bbox.x1 - bbox.x0
            if cw > 0 ∧ ow / cw < 0.6 then
              classifierFigureSearch bbox rest
            else
              -- an Element's type is always truthy, so the type test runs
              if strContains prev.element_type.strLower "image" ∨
                 strContains prev.element_type.strLower "figure" ∨
                 strContains prev.element_type.strLower "table" ∨
                 strContains prev.element_type.strLower "chart" then
                some true
              else
                let ar := if h > 0 then w / h else 0
                if 0.4 < ar ∧ ar < 2.5 then some true
                else classifierFigureSearch bbox rest

/-- The caption step of `classify_element` (lines 105–200): the `try` block
around `is_likely_caption` and the figure search.  `some (inl e)` models
the early `return` of line 187, `some (inr tyc)` the in-place update of
`element_type`/`confidence` without an early return, and `none` the cases
where nothing happens — including the `except` arm that swallows the
`NameError` raised inside `is_likely_caption`. -/
def classifyCaptionStep (text : String) (bbox : Box)
    (style : StyleInfo) (coords : Coords) (page : PageInfo)
    (page_number : Nat) (is_list : Bool) (ety : ElementType)
    (elemsBefore elemsAfter : List Element) :
    Option (Element ⊕ (ElementType × Q)) :=
  if ¬ is_list ∧ ety = .TEXT ∧ elemsBefore ≠ [] then
    match is_likely_caption text bbox style page elemsBefore elemsAfter with
    | .error _ => none
    | .ok (is_caption, caption_confidence) =>
      if is_caption ∧ caption_confidence > 0.6 then
        match classifierFigureSearch bbox (elemsBefore.reverse.take 4) with
        | none => none
        | some is_image =>
          let tyc : ElementType × Q :=
            if is_image then (.FIGURE_CAPTION, qmin 0.95 (caption_confidence * 1.1))
            else (.TABLE_CAPTION, qmin 0.9 caption_confidence)
          if tyc.2 > 0.75 then
            let e : Element :=
              { text := text, element_type := tyc.1, bbox := bbox,
                page_number := page_number,
                metadata := { style_info := style, coordinates := some coords,
                              confidence := tyc.2 } }
            some (Sum.inl e)
          else some (Sum.inr tyc)
      else none
  else none

/-- The body of `classify_element` after line 54 (the `style` argument is
the caller's style dict with `median_font_size` already written into it).
The caption step's call to `is_likely_caption` sits in a `try/except` that
swallows the `NameError` (lines 198–200), modelled by the `.error` arm. -/
def classifyElementCore (o : NlpOracle) (text0 : String) (bbox : Box)
    (style : StyleInfo) (coords : Coords) (page : PageInfo)
    (page_number : Nat) (elemsBefore elemsAfter : List Element) : Element :=
  let text := pyStrip text0
  if text = "" then
    { text := "", element_type := .DISCARDED, bbox := bbox,
      page_number := page_number,
      metadata := { style_info := style, coordinates := some coords,
                    confidence := 1 } }
  else
    let tc := is_possible_title o text (some style)
    let is_title := tc.1
    let title_confidence := tc.2
    -- step 1: section headers
    let s1 : ElementType × Q :=
      if is_title ∧ title_confidence > 0.6 ∧ sectionNumberTitleMatch text then
        (.TITLE, qmax 0.9 title_confidence)
      else (.TEXT, 0.7)
    -- step 2: list items
    let is_list := if s1.1 ≠ .TITLE then is_list_item text else false
    let s2 : ElementType × Q :=
      if s1.1 ≠ .TITLE ∧ is_list then (.LIST_ITEM, 0.9) else s1
    -- step 3: other titles
    let s3 : ElementType × Q :=
      if s2.1 = .TEXT ∧ is_title ∧ title_confidence > 0.4 then
        (.TITLE, qmax s2.2 title_confidence)
      else s2
    -- step 3': block equations
    let s4 : ElementType × Q :=
      if strContains text "=" ∧ (strContains text "\\" ∨ strContains text "$") then
        (.BLOCK_EQUATION, 0.9)
      else s3
    -- step 4: captions
    match classifyCaptionStep text bbox style coords page page_number
        is_list s4.1 elemsBefore elemsAfter with
    | some (Sum.inl e) => e
    | other =>
      let s5 : ElementType × Q :=
        match other with
        | some (Sum.inr tyc) => tyc
        | _ => s4
      -- steps 5–8: page numbers, header/footer, footnotes, contact info
      let s6 : ElementType × Q :=
        if is_page_number text ∧ coords.relative_y > 0.85 then (.TEXT, 0.98)
        else if (is_footer text ∨ is_header_footer text) ∧
                (coords.relative_y > 0.85 ∨ coords.relative_y < 0.15) then
          (.TEXT, 0.9)
        else if is_footnote text ∧ coords.relative_y < 0.15 then (.TEXT, 0.9)
        else if is_contact_info text then (.TEXT, 0.9)
        else s5
      { text := text, element_type := s6.1, bbox := bbox,
        page_number := page_number,
        metadata := { style_info := style, coordinates := some coords,
                      confidence := s6.2 } }

/-- `classify_element` (element_classifier.py lines 17–231).  The result is
the classified `Element` paired with the caller's `style_info` dictionary
as it stands after the call: line 54 executes
`style_info['median_font_size'] = context.get('median_font_size', 12)`
first, and every return path leaves the dictionary in that state. -/
def classify_element (o : NlpOracle) (text0 : String) (bbox : Box)
    (style0 : StyleInfo) (page : PageInfo) (page_number : Nat)
    (ctx : DocContext) (elemsBefore elemsAfter : List Element) :
    Element × StyleInfo :=
  let coords := mkCoords bbox.x0 bbox.y0 bbox.x1 bbox.y1 page.width page.height
  let style := { style0 with median_font_size := some (ctx.median_font_size.getD 12) }
  (classifyElementCore o text0 bbox style coords page page_number
    elemsBefore elemsAfter, style)

/-! ## `src/processor/spatial_grouper.py` -/

/-- A raw text block as handled by `merge_text_blocks` (a Python dict with
keys `text`, `bbox`, `style_info` and optionally `element_type`,
`page_height`, `page_width`). -/
structure MBlock where
  text : String
  bbox : Box
  style_info : StyleInfo := {}
  element_type : Option String := none
  page_height : Option Q := none
  page_width : Option Q := none
deriving DecidableEq

/-- Python `a or b` on two optional floats (`0.0` and `None` are falsy). -/
def pyOrQ (a b : Option Q) : Option Q :=
  match a with
  | some v => if v = 0 then b else some v
  | none => b

/-- Truthiness of an optional float. -/
def pyTruthyQ (o : Option Q) : Bool := !(o.getD 0 = 0)

/-- Raw rectangle area `(x1-x0)*(y1-y0)` (no clamping — as in
`merge_blocks`' `largest_block` key and the `iou` helper). -/
def areaRaw (b : Box) : Q := (b.x1 - b.x0) * (b.y1 - b.y0)

/-- Clamped area `max(0, x1-x0) * max(0, y1-y0)` (the `area` helper of the
final overlap-merge stage, spatial_grouper.py lines 173–174). -/
def areaClamped (b : Box) : Q := qmax 0 (b.x1 - b.x0) * qmax 0 (b.y1 - b.y0)

/-- Intersection area `max(0, ix1-ix0) * max(0, iy1-iy0)`. -/
def interArea (a b : Box) : Q :=
  qmax 0 (qmin a.x1 b.x1 - qmax a.x0 b.x0) * qmax 0 (qmin a.y1 b.y1 - qmax a.y0 b.y0)

/-- `merge_blocks`' text fold (lines 313–322): each later block joins as
`merged.rstrip() + (' ' if needed) + text.lstrip()`; after the strips the
space is always needed, but the test is kept as written. -/
def mergeTextFold (first : String) (rest : List String) : String :=
  rest.foldl (fun acc t =>
    let prev := pyRStrip acc
    let curr := pyLStrip t
    let needs_space := ¬ (strEndsWith prev " " ∨ strStartsWith curr " ")
    prev ++ (if needs_space then " " else "") ++ curr) first

/-- Python `max(blocks, key=area)` — the first block of maximal area. -/
def largestOf (b : MBlock) (rest : List MBlock) : MBlock :=
  rest.foldl (fun best x => if areaRaw x.bbox > areaRaw best.bbox then x else best) b

/-- `merge_blocks` (spatial_grouper.py lines 299–332).  A one-block group is
returned as-is; a longer group yields a fresh dict with only `text`, `bbox`
and `style_info` keys (so `element_type`/page keys are dropped). -/
def merge_blocks : List MBlock → Option MBlock
  | [] => none
  | [b] => some b
  | b :: rest =>
      let all := b :: rest
      let ub : Box :=
        { x0 := (all.map (fun x => x.bbox.x0)).foldl qmin b.bbox.x0
          y0 := (all.map (fun x => x.bbox.y0)).foldl qmin b.bbox.y0
          x1 := (all.map (fun x => x.bbox.x1)).foldl qmax b.bbox.x1
          y1 := (all.map (fun x => x.bbox.y1)).foldl qmax b.bbox.y1 }
      some { text := mergeTextFold b.text (rest.map (fun x => x.text)),
             bbox := ub,
             style_info := (largestOf b rest).style_info }

/-- `^\d+(?:\.\d+)*$` (spatial_grouper.py line 40), `re.match` with the
final `$` — a full match. -/
def sectionNumberBare (s : String) : Bool :=
  RE.full (RE.mkCat reDigits1 (RE.star (RE.mkCat (chr '.') reDigits1))) s

/-- State of the main merge loop: accumulated merged blocks and the current
group in reverse order (the Python `current_group`, never empty). -/
structure MergeState where
  acc : List MBlock
  grpRev : List MBlock

/-- Flush the current group through `merge_blocks`. -/
def flushGroup (st : MergeState) : List MBlock :=
  match merge_blocks st.grpRev.reverse with
  | some m => st.acc ++ [m]
  | none => st.acc

/-- One iteration of the merge loop of `merge_text_blocks` (lines 29–96).
The loop body contains two copies of the merge decision: lines 65–78
(including the page-number / centered-gap split) and a duplicated check at
lines 80–96 that runs unconditionally afterwards in the same iteration,
re-computing identical values.  So a block satisfying the merge condition
is appended to the group twice, and a block failing it causes two flushes
(the second flushing the singleton group `[block]` just created). -/
def mergeStep (st : MergeState) (block : MBlock) : MergeState :=
  let prev := st.grpRev.headD block
  let prev_bbox := prev.bbox
  let curr_bbox := block.bbox
  let y_gap := qabs (prev_bbox.y0 - curr_bbox.y0)
  let x_gap := curr_bbox.x0 - prev_bbox.x1
  let prev_font := prev.style_info.font_size.getD 0
  let curr_font := block.style_info.font_size.getD 0
  let font_diff_ratio : Q :=
    if ¬ prev_font = 0 ∧ ¬ curr_font = 0 then
      qabs (prev_font - curr_font) / qmax prev_font curr_font
    else 1
  let curr_text := pyStrip block.text
  -- `section_merge` (line 50) is computed by the source but never used.
  let similar_font := font_diff_ratio ≤ 0.2
  let same_style := prev.style_info.is_bold = block.style_info.is_bold ∧
    prev.style_info.is_italic = block.style_info.is_italic
  let same_line := y_gap ≤ 3
  let close_enough := x_gap ≤ 60
  let page_height := pyOrQ prev.page_height prev.style_info.page_height
  let curr_center_x := (curr_bbox.x0 + curr_bbox.x1) / 2
  let centeredPn : Bool × Bool :=
    if pyTruthyQ page_height then
      let page_width := pyOrQ prev.page_width prev.style_info.page_width
      let is_centered :=
        if pyTruthyQ page_width then
          qabs (curr_center_x - (page_width.getD 0) / 2) < (page_width.getD 0) * 0.15
        else false
      let is_page_number := is_centered ∧ curr_bbox.y0 > (page_height.getD 0) * 0.85 ∧
        (pyStrip curr_text).toList.length ≤ 5 ∧ pyIsDigitStr (pyStrip curr_text)
      (is_centered, is_page_number)
    else (false, false)
  let is_centered := centeredPn.1
  let is_page_number := centeredPn.2
  let large_y_gap := y_gap > 30
  let mergeCond := same_line ∧ close_enough ∧ similar_font ∧ same_style
  -- first copy of the decision (lines 65–78)
  let st1 : MergeState :=
    if is_page_number ∨ (is_centered ∧ large_y_gap ∧ curr_bbox.y0 > prev_bbox.y1) then
      { acc := flushGroup st, grpRev := [block] }
    else if mergeCond then
      { st with grpRev := block :: st.grpRev }
    else
      { acc := flushGroup st, grpRev := [block] }
  -- duplicated decision (lines 80–96), with the same values
  if mergeCond then
    { st1 with grpRev := block :: st1.grpRev }
  else
    { acc := flushGroup st1, grpRev := [block] }

/-- `check_coords_within_boundary` (lines 98–105). -/
def check_coords_within_boundary (coords boundary : Box)
    (hThresh vThresh : Q) : Bool :=
  let width := boundary.x1 - boundary.x0
  let height := boundary.y1 - boundary.y0
  (coords.x0 > boundary.x0 - hThresh * width) ∧
  (coords.x1 < boundary.x1 + hThresh * width) ∧
  (coords.y0 > boundary.y0 - vThresh * height) ∧
  (coords.y1 < boundary.y1 + vThresh * height)

/-- The wrapped-list-item regrouping pass (lines 107–137): consecutive
`list_item` blocks within a boundary of the running `tmp` block are folded
into it. -/
def groupedPassGo : Option MBlock → List MBlock → List MBlock
  | tmp, [] => match tmp with | some t => [t] | none => []
  | tmp, block :: rest =>
      if block.element_type = some "list_item" then
        match tmp with
        | none => groupedPassGo (some block) rest
        | some t =>
            if check_coords_within_boundary block.bbox t.bbox 0.08 0.12 then
              let nb : Box :=
                { x0 := qmin t.bbox.x0 block.bbox.x0
                  y0 := qmin t.bbox.y0 block.bbox.y0
                  x1 := qmax t.bbox.x1 block.bbox.x1
                  y1 := qmax t.bbox.y1 block.bbox.y1 }
              groupedPassGo (some { t with text := t.text ++ " " ++ block.text,
                                           bbox := nb }) rest
            else t :: groupedPassGo (some block) rest
      else
        match tmp with
        | some t => t :: block :: groupedPassGo none rest
        | none => block :: groupedPassGo none rest

/-- The `iou` helper's second component (lines 139–150): intersection over
the first box's area, with the `1e-8` guard. -/
def overlapOfA (a b : Box) : Q := interArea a b / (areaRaw a + 1 / 100000000)

/-- The contained-`list_item` filter (lines 152–165): drop a `list_item`
block that lies ≥ 92% inside a strictly larger `list_item` elsewhere in the
list. -/
def filteredPass (grouped : List MBlock) : List MBlock :=
  let idx := grouped.enum
  (idx.filter (fun ai =>
    if ¬ ai.2.element_type = some "list_item" then true
    else ¬ idx.any (fun bj =>
      ¬ ai.1 = bj.1 ∧ bj.2.element_type = some "list_item" ∧
      decide (overlapOfA ai.2.bbox bj.2.bbox > 0.92) ∧
      decide (areaRaw ai.2.bbox < areaRaw bj.2.bbox * 0.9)))).map (fun ai => ai.2)

/-- The dedup pass (lines 166–172): first occurrence of each
`(element_type, bbox, text)` key survives. -/
def dedupPassGo : List (Option String × Box × String) → List MBlock → List MBlock
  | _, [] => []
  | seen, b :: rest =>
      let key := (b.element_type, b.bbox, b.text)
      if seen.contains key then dedupPassGo seen rest
      else b :: dedupPassGo (key :: seen) rest

/-- `overlap_ratio` (lines 175–185) exceeds 0.8 on either side.  Both
ratios are taken against the FIRST block's original bbox, so which later
blocks get absorbed does not depend on the accumulated union. -/
def absorbCond (aBox bBox : Box) : Bool :=
  interArea aBox bBox / (areaClamped aBox + 1 / 100000000) > 0.8 ∨
  interArea aBox bBox / (areaClamped bBox + 1 / 100000000) > 0.8

/-- The union-bbox/text accumulation over the absorbed blocks (lines
196–205).  `out_bbox` is updated before the text test, so
`b.x0 ≥ out_bbox.x0` always holds and the absorbed text is appended. -/
def absorbFold (start : Box × String) (absorbed : List MBlock) : Box × String :=
  absorbed.foldl (fun st b =>
    let nb : Box :=
      { x0 := qmin st.1.x0 b.bbox.x0, y0 := qmin st.1.y0 b.bbox.y0,
        x1 := qmax st.1.x1 b.bbox.x1, y1 := qmax st.1.y1 b.bbox.y1 }
    let nt := if b.bbox.x0 ≥ nb.x0 then st.2 ++ " " ++ b.text
              else b.text ++ " " ++ st.2
    (nb, nt)) start

/-- The final overlap-merge stage (lines 186–210), written with a fuel
argument (`fuel ≥ length` always holds at the call site, since the kept
remainder is a sublist of the processed list, so the fuel-out branch is
never taken). -/
def finalMergeGo : Nat → List MBlock → List MBlock
  | 0, _ => []
  | _, [] => []
  | fuel + 1, a :: rest =>
      let absorbed := rest.filter (fun b => absorbCond a.bbox b.bbox)
      let kept := rest.filter (fun b => ¬ absorbCond a.bbox b.bbox)
      let bt := absorbFold (a.bbox, a.text) absorbed
      { a with bbox := bt.1, text := bt.2 } :: finalMergeGo fuel kept

/-- Lexicographic comparison of rational pair keys (Python tuple order). -/
def keyLe (a b : Q × Q) : Bool := a.1 < b.1 ∨ (a.1 = b.1 ∧ a.2 ≤ b.2)

/-- Stable insertion sort by a rational pair key (Python `sorted` is
stable; equal keys keep their original order). -/
def insStableBy {α : Type} (key : α → Q × Q) (x : α) : List α → List α
  | [] => [x]
  | y :: ys =>
      if keyLe (key y) (key x) then y :: insStableBy key x ys
      else x :: y :: ys

def pySortBy {α : Type} (key : α → Q × Q) (l : List α) : List α :=
  l.foldl (fun acc x => insStableBy key x acc) []

/-- `merge_text_blocks` (spatial_grouper.py lines 4–211).  Note that after
the main loop the final `current_group` is never flushed: the function
returns while its last group is still pending, so e.g. a single-block input
produces an empty result. -/
def merge_text_blocks (blocks : List MBlock) : List MBlock :=
  match pySortBy (fun b => (-b.bbox.y0, b.bbox.x0)) blocks with
  | [] => []
  | first :: rest =>
      let final := rest.foldl mergeStep { acc := [], grpRev := [first] }
      -- the loop ends here; `final.grpRev` is dropped (no flush after line 96)
      let merged_blocks := final.acc
      let grouped := groupedPassGo none merged_blocks
      let filtered := filteredPass grouped
      let deduped := dedupPassGo [] filtered
      finalMergeGo deduped.length deduped

/-- Geometric union area of a list of boxes (grid decomposition over the
coordinate breakpoints).  Used to state the spec's area-preservation
property. -/
def insSortedQ (x : Q) : List Q → List Q
  | [] => [x]
  | y :: ys => if y ≤ x then y :: insSortedQ x ys else x :: y :: ys

def sortedDedupQ (xs : List Q) : List Q :=
  (xs.foldl (fun acc x => if acc.contains x then acc else x :: acc) []).foldl
    (fun acc x => insSortedQ x acc) []

def unionArea (bs : List Box) : Q :=
  let xs := sortedDedupQ (bs.flatMap (fun b => [b.x0, b.x1]))
  let ys := sortedDedupQ (bs.flatMap (fun b => [b.y0, b.y1]))
  let xCells := xs.zip xs.tail
  let yCells := ys.zip ys.tail
  (xCells.map (fun xc =>
    (yCells.map (fun yc =>
      if bs.any (fun b => b.x0 ≤ xc.1 ∧ xc.2 ≤ b.x1 ∧ b.y0 ≤ yc.1 ∧ yc.2 ≤ b.y1)
      then (xc.2 - xc.1) * (yc.2 - yc.1) else 0)).sum)).sum

/-! ## `src/processor/list_handler.py` -/

/-- `_are_list_items_related` (list_handler.py lines 84–123). -/
def are_list_items_related (item1 item2 : Element)
    (max_gap max_indent_diff : Q) : Bool :=
  let y_diff := qabs (item1.bbox.y1 - item2.bbox.y0)
  if y_diff > max_gap then false
  else
    let x_diff := qabs (item1.bbox.x0 - item2.bbox.x0)
    if x_diff > max_indent_diff then false
    else
      let font1 := item1.metadata.style_info.font_name.getD ""
      let font2 := item2.metadata.style_info.font_name.getD ""
      if ¬ font1 = "" ∧ ¬ font2 = "" ∧ ¬ font1 = font2 then false
      else
        let size1 := item1.metadata.style_info.font_size.getD 0
        let size2 := item2.metadata.style_info.font_size.getD 0
        if ¬ size1 = 0 ∧ ¬ size2 = 0 ∧ qabs (size1 - size2) > 0.1 then false
        else true

/-- Loop state for `group_consecutive_list_items`: output so far, the
fresh-id counter (modelling `uuid.uuid4()`), the current group id, and the
previous list item. -/
structure GroupState where
  out : List Element
  counter : Nat
  current_group_id : Option Nat
  prev_list_item : Option Element

def setGroupId (e : Element) (gid : Option Nat) : Element :=
  { e with metadata := { e.metadata with list_group_id := gid } }

def groupStep (max_gap max_indent_diff : Q) (st : GroupState) (e : Element) :
    GroupState :=
  if ¬ e.element_type = ElementType.LIST_ITEM then
    { st with out := st.out ++ [e], prev_list_item := none }
  else
    match st.prev_list_item with
    | none =>
        let e1 := setGroupId e (some st.counter)
        { out := st.out ++ [e1], counter := st.counter + 1,
          current_group_id := some st.counter, prev_list_item := some e1 }
    | some prev =>
        if are_list_items_related prev e max_gap max_indent_diff then
          let e1 := setGroupId e st.current_group_id
          { st with out := st.out ++ [e1], prev_list_item := some e1 }
        else
          let e1 := setGroupId e (some st.counter)
          { out := st.out ++ [e1], counter := st.counter + 1,
            current_group_id := some st.counter, prev_list_item := some e1 }

/-- `group_consecutive_list_items` (list_handler.py lines 39–82), with
`uuid.uuid4()` modelled by a fresh counter starting at `seed` (the code
relies only on the freshness of the generated ids). -/
def group_consecutive_list_items (elements : List Element)
    (group_lists : Bool := true) (max_gap : Q := 20)
    (max_indent_diff : Q := 10) (seed : Nat := 0) : List Element :=
  if ¬ group_lists then
    ((elements.foldl (fun (st : List Element × Nat) e =>
        if e.element_type = ElementType.LIST_ITEM then
          (st.1 ++ [setGroupId e (some st.2)], st.2 + 1)
        else (st.1 ++ [e], st.2)) ([], seed))).1
  else
    (elements.foldl (groupStep max_gap max_indent_diff)
      { out := [], counter := seed, current_group_id := none,
        prev_list_item := none }).out

/-! ## `src/processor/list_grouper.py` -/

/-- `group_consecutive_list_items` of list_grouper.py (imported by the
pipeline as `group_list_items`, called at pipeline.py line 458 on `Element`
objects).  Each element is taken as its `__dict__` view and the grouping
test is `element_dict['element_type'] == 'list_item'` — an `ElementType`
enum member compared with a `str`, which is `False` for every member.  So
every element takes the else-branch, `current_group` stays empty, and the
input comes back unchanged. -/
def group_list_items (elements : List Element) : List Element := elements

/-! ## `src/processor/document_structure.py` -/

inductive SplitType where
  | NONE | CONTINUATION | SPLIT_HEADER | SPLIT_FOOTER
  | SPLIT_TABLE | SPLIT_LIST | SPLIT_PARAGRAPH
deriving DecidableEq, Repr

structure SplitMarker where
  split_type : SplitType
  source_page : Nat
  target_page : Nat
  source_bbox : Option Box := none
  target_bbox : Option Box := none
  confidence : Q := 1
deriving DecidableEq

/-- A page record as consumed by the structure analyzer (`page['blocks']`
of dicts with `text`, `bbox`, `style_info`, optionally `element_type`). -/
structure DSBlock where
  text : String
  bbox : Box
  style_info : StyleInfo := {}
  element_type : Option String := none
deriving DecidableEq

structure DSPage where
  blocks : List DSBlock
deriving DecidableEq

/-- The four `continuation_patterns` (document_structure.py lines 29–34),
each `re.search`ed with `re.IGNORECASE`; `cont\.?\s*$` is end-anchored. -/
def continuationSearch (s : String) : Bool :=
  let t := pyLower s
  reSearch (reCatL [lit "continued", reWs1, lit "on", reWs1, lit "next",
    reWs1, lit "page"]) t ||
  reSearch (reCatL [lit "to", reWs1, lit "be", reWs1, lit "continued"]) t ||
  RE.full (reCatL [dotStar, lit "cont", reOpt (chr '.'), reWs0]) t ||
  reSearch (reCatL [lit "continues", reWs1, lit "next"]) t

/-- How many of the four continuation patterns match (the source appends
one marker per matching pattern — there is no `break` in the loop). -/
def continuationMatchCount (s : String) : Nat :=
  let t := pyLower s
  (if reSearch (reCatL [lit "continued", reWs1, lit "on", reWs1, lit "next",
      reWs1, lit "page"]) t then 1 else 0) +
  (if reSearch (reCatL [lit "to", reWs1, lit "be", reWs1, lit "continued"]) t
   then 1 else 0) +
  (if RE.full (reCatL [dotStar, lit "cont", reOpt (chr '.'), reWs0]) t
   then 1 else 0) +
  (if reSearch (reCatL [lit "continues", reWs1, lit "next"]) t then 1 else 0)

/-- The three `table_patterns` (lines 122–126), `re.search` + IGNORECASE. -/
def tablePatternSearch (s : String) : Bool :=
  let t := pyLower s
  reSearch (reCatL [lit "table", reWs1, reDigits1]) t ||
  reSearch (reCatL [lit "tab", reWs0, reDigits1]) t ||
  reSearch (reCatL [lit "tbl", reWs0, reDigits1]) t

/-- Adjacent page pairs with their zero-based index
(`for i in range(len(pages) - 1)`). -/
def adjPairsGo (i : Nat) : List DSPage → List (Nat × DSPage × DSPage)
  | p1 :: p2 :: rest => (i, p1, p2) :: adjPairsGo (i + 1) (p2 :: rest)
  | _ => []

def adjPairs (pages : List DSPage) : List (Nat × DSPage × DSPage) :=
  adjPairsGo 0 pages

/-- `detect_split_continuations` (lines 26–66): for each adjacent pair, one
marker per matching pattern on the last block of the current page, then one
per matching pattern on the first block of the next page. -/
def detect_split_continuations (pages : List DSPage) : List SplitMarker :=
  (adjPairs pages).flatMap (fun t =>
    let i := t.1
    let mk : Box → SplitMarker := fun bb =>
      { split_type := .CONTINUATION, source_page := i + 1,
        target_page := i + 2, source_bbox := some bb, confidence := 0.9 }
    (match t.2.1.blocks.getLast? with
     | some lb => List.replicate (continuationMatchCount lb.text) (mk lb.bbox)
     | none => []) ++
    (match t.2.2.blocks.head? with
     | some fb => List.replicate (continuationMatchCount fb.text) (mk fb.bbox)
     | none => []))

/-- `detect_split_headers_footers` (lines 68–117). -/
def detect_split_headers_footers (pages : List DSPage) : List SplitMarker :=
  if pages.length < 2 then []
  else
    (adjPairs pages).flatMap (fun t =>
      let i := t.1
      let cur := t.2.1
      let nxt := t.2.2
      let hdr : List SplitMarker :=
        match cur.blocks.head?, nxt.blocks.head? with
        | some ch, some nh =>
            if pyStrip ch.text = pyStrip nh.text ∧
               qabs (ch.bbox.x0 - nh.bbox.x0) < 20 ∧
               ch.style_info.font = nh.style_info.font then
              [{ split_type := .SPLIT_HEADER, source_page := i + 1,
                 target_page := i + 2, source_bbox := some ch.bbox,
                 target_bbox := some nh.bbox, confidence := 0.8 }]
            else []
        | _, _ => []
      let ftr : List SplitMarker :=
        match cur.blocks.getLast?, nxt.blocks.getLast? with
        | some cf, some nf =>
            if pyStrip cf.text = pyStrip nf.text ∧
               qabs (cf.bbox.x0 - nf.bbox.x0) < 20 ∧
               cf.style_info.font = nf.style_info.font then
              [{ split_type := .SPLIT_FOOTER, source_page := i + 1,
                 target_page := i + 2, source_bbox := some cf.bbox,
                 target_bbox := some nf.bbox, confidence := 0.8 }]
            else []
        | _, _ => []
      hdr ++ ftr)

/-- `detect_split_tables` (lines 119–149). -/
def detect_split_tables (pages : List DSPage) : List SplitMarker :=
  (adjPairs pages).flatMap (fun t =>
    let i := t.1
    match t.2.1.blocks.getLast?, t.2.2.blocks.head? with
    | some lb, some fb =>
        if tablePatternSearch lb.text ∧ tablePatternSearch fb.text then
          [{ split_type := .SPLIT_TABLE, source_page := i + 1,
             target_page := i + 2, source_bbox := some lb.bbox,
             target_bbox := some fb.bbox, confidence := 0.85 }]
        else []
    | _, _ => [])

/-- `detect_split_lists` (lines 151–178). -/
def detect_split_lists (pages : List DSPage) : List SplitMarker :=
  (adjPairs pages).flatMap (fun t =>
    let i := t.1
    match t.2.1.blocks.getLast?, t.2.2.blocks.head? with
    | some lb, some fb =>
        if lb.element_type = some "LIST_ITEM" ∧
           fb.element_type = some "LIST_ITEM" ∧
           qabs (lb.bbox.x0 - fb.bbox.x0) < 10 then
          [{ split_type := .SPLIT_LIST, source_page := i + 1,
             target_page := i + 2, source_bbox := some lb.bbox,
             target_bbox := some fb.bbox, confidence := 0.9 }]
        else []
    | _, _ => [])

def splitParaBullets : List String :=
  ["•", "-", "•", "▪", "▫", "○", "■", "□", "▪", "▫", "●", "○", "◆", "◇",
   "▶", "▷"]

/-- `detect_split_paragraphs` (lines 180–214). -/
def detect_split_paragraphs (pages : List DSPage) : List SplitMarker :=
  (adjPairs pages).flatMap (fun t =>
    let i := t.1
    match t.2.1.blocks.getLast?, t.2.2.blocks.head? with
    | some lb, some fb =>
        if lb.element_type = some "TEXT" ∧ fb.element_type = some "TEXT" ∧
           ¬ (strEndsWith (pyStrip lb.text) "." ∨
              strEndsWith (pyStrip lb.text) "!" ∨
              strEndsWith (pyStrip lb.text) "?") ∧
           ¬ splitParaBullets.any (fun b => strStartsWith (pyStrip fb.text) b) ∧
           qabs (lb.bbox.x0 - fb.bbox.x0) < 15 ∧
           lb.style_info.font = fb.style_info.font ∧
           qabs (lb.style_info.size.getD 0 - fb.style_info.size.getD 0) < 0.5 then
          [{ split_type := .SPLIT_PARAGRAPH, source_page := i + 1,
             target_page := i + 2, source_bbox := some lb.bbox,
             target_bbox := some fb.bbox, confidence := 0.8 }]
        else []
    | _, _ => [])

/-- `DocumentStructureAnalyzer.analyze` (lines 222–236): run all five
detectors and sort by `(source_page, -source_bbox[1] or 0)`. -/
def analyze (pages : List DSPage) : List SplitMarker :=
  pySortBy (fun m => ((m.source_page : Q),
      match m.source_bbox with
      | some b => -b.y0
      | none => 0))
    (detect_split_continuations pages ++ detect_split_headers_footers pages ++
     detect_split_tables pages ++ detect_split_lists pages ++
     detect_split_paragraphs pages)

/-! ## Claim-independent lemmas -/

/-- With a non-empty `elements_before`, `is_likely_caption` either raises
(the unbound `ElementType` at line 237) or has already returned
`(False, 0.0)` from one of its early guards. -/
theorem is_likely_caption_ne_nil (t : String) (b : Box) (s : StyleInfo)
    (p : PageInfo) (eb ea : List Element) (h : eb ≠ []) :
    is_likely_caption t b s p eb ea = .error () ∨
    is_likely_caption t b s p eb ea = .ok (false, 0) := by
  unfold is_likely_caption
  by_cases h1 : pyStrip t = ""
  · simp [h1]
  · simp only [h1, if_false]
    split
    · exact Or.inr rfl
    · simp [h]

/-- The classifier's caption step never changes anything: when it runs at
all, `elements_before` is non-empty, so `is_likely_caption` either raises
(caught by the `except`) or reports no caption. -/
theorem classifyCaptionStep_eq_none (t : String) (b : Box) (s : StyleInfo)
    (c : Coords) (p : PageInfo) (pn : Nat) (il : Bool) (ety : ElementType)
    (eb ea : List Element) :
    classifyCaptionStep t b s c p pn il ety eb ea = none := by
  unfold classifyCaptionStep
  split
  · next h =>
    rcases is_likely_caption_ne_nil t b s p eb ea h.2.2 with h1 | h1 <;>
      simp [h1]
  · rfl

/-! ## The claims -/

/-- C9: `classify_element` applied to empty or whitespace-only text always
returns an element of type `Discarded` with confidence exactly 1,
independently of style information, position and surrounding context. -/
theorem classify_empty_text_discarded (o : NlpOracle) (text0 : String)
    (bbox : Box) (style0 : StyleInfo) (page : PageInfo) (pn : Nat)
    (ctx : DocContext) (eb ea : List Element)
    (h : pyStrip text0 = "") :
    (classify_element o text0 bbox style0 page pn ctx eb ea).1.element_type
      = ElementType.DISCARDED ∧
    (classify_element o text0 bbox style0 page pn ctx eb ea).1.metadata.confidence
      = 1 := by
  simp only [classify_element, classifyElementCore, h]
  exact ⟨rfl, rfl⟩

/-- Witness for C9 at whitespace-only input. -/
theorem classify_empty_text_discarded_witness :
    (classify_element defaultOracle "   " ⟨0, 0, 0, 0⟩ {}
        { width := 612, height := 792 } 1 {} [] []).1.element_type
      = ElementType.DISCARDED ∧
    (classify_element defaultOracle "   " ⟨0, 0, 0, 0⟩ {}
        { width := 612, height := 792 } 1 {} [] []).1.metadata.confidence
      = 1 :=
  classify_empty_text_discarded defaultOracle "   " ⟨0, 0, 0, 0⟩ {}
    { width := 612, height := 792 } 1 {} [] [] (by decide)

/-- C10: on every call — including calls with empty text — `classify_element`
writes the key `median_font_size` into the caller's `style_info` dictionary
(value `context.get('median_font_size', 12)`), so the caller's dictionary is
mutated in place as a side effect; the dictionary after the call is exactly
the input dictionary with that one key set. -/
theorem classify_writes_median_font_size (o : NlpOracle) (text0 : String)
    (bbox : Box) (style0 : StyleInfo) (page : PageInfo) (pn : Nat)
    (ctx : DocContext) (eb ea : List Element) :
    (classify_element o text0 bbox style0 page pn ctx eb ea).2
      = { style0 with median_font_size := some (ctx.median_font_size.getD 12) } :=
  rfl

/-- Standard letter page used by the concrete scenarios. -/
def pageStd : PageInfo := { width := 612, height := 792, median_font_size := some 12 }

/-- Document statistics with a 12pt body baseline. -/
def ctxStd : DocContext := { median_font_size := some 12 }

/-- C6 counterexample: the digit block "5" in the bottom margin band
(`relative_y = 700/792 > 0.85`) is classified with the tag `TEXT` — and
`ElementType.PAGE_NUMBER` is itself an alias of `TEXT` (`data_models.py`
line 35), the same tag NarrativeText gets — so no tag distinct from
narrative text exists for page numbers. -/
theorem pageNumber_is_text_tag :
    (classify_element defaultOracle "5" ⟨300, 700, 310, 712⟩
        { font_size := some 10 } pageStd 1 ctxStd [] []).1.element_type
      = ElementType.TEXT ∧
    ElementType.PAGE_NUMBER = ElementType.TEXT ∧
    ElementType.NARRATIVE_TEXT = ElementType.TEXT := by
  refine ⟨by decide, rfl, rfl⟩

/-- C6 amended: a block whose (stripped) text matches the page-number
pattern set (pure digits, `-N-`, `[N]`, `Page N[ of M]`, `N/M`, `p.N` —
roman numerals are NOT in the pattern set) and whose `relative_y` exceeds
0.85 is classified with tag `TEXT` (the `PAGE_NUMBER` alias, not a distinct
variant) and confidence 0.98, independently of everything else. -/
theorem classify_pageNumber_bottom_band (o : NlpOracle) (text0 : String)
    (bbox : Box) (style0 : StyleInfo) (page : PageInfo) (pn : Nat)
    (ctx : DocContext) (eb ea : List Element)
    (hpn : is_page_number (pyStrip text0) = true)
    (hy : (mkCoords bbox.x0 bbox.y0 bbox.x1 bbox.y1 page.width
        page.height).relative_y > 0.85) :
    (classify_element o text0 bbox style0 page pn ctx eb ea).1.element_type
      = ElementType.TEXT ∧
    (classify_element o text0 bbox style0 page pn ctx eb ea).1.metadata.confidence
      = 0.98 := by
  have hne : ¬ pyStrip text0 = "" := by
    intro he
    rw [he] at hpn
    exact absurd hpn (by decide)
  simp only [classify_element, classifyElementCore, hne, if_false,
    classifyCaptionStep_eq_none, hpn, hy]
  simp

/-- Witness for the amended C6 statement at the concrete block "5". -/
theorem classify_pageNumber_bottom_band_witness :
    (classify_element defaultOracle "5" ⟨306, 706, 316, 718⟩
        { font_size := some 10 } pageStd 1 ctxStd [] []).1.element_type
      = ElementType.TEXT ∧
    (classify_element defaultOracle "5" ⟨306, 706, 316, 718⟩
        { font_size := some 10 } pageStd 1 ctxStd [] []).1.metadata.confidence
      = 0.98 :=
  classify_pageNumber_bottom_band defaultOracle "5" ⟨306, 706, 316, 718⟩
    { font_size := some 10 } pageStd 1 ctxStd [] [] (by decide) (by decide)

/-- A well-formed 10×10 text block. -/
def c1Block : MBlock :=
  { text := "Hello world", bbox := ⟨0, 0, 10, 10⟩,
    style_info := { font_size := some 12 } }

/-- C1: the trailing `current_group` of the merge loop is never flushed
(`spatial_grouper.py` has no flush between lines 96 and 98), so a
single-block page yields an empty result and the whole covered area is
lost — the union area of the outputs (0) does not equal the union area of
the inputs (100). -/
theorem merge_text_blocks_loses_area :
    merge_text_blocks [c1Block] = [] ∧
    unionArea ((merge_text_blocks [c1Block]).map (fun b => b.bbox)) = 0 ∧
    unionArea ([c1Block].map (fun b => b.bbox)) = 100 := by
  refine ⟨by decide, by decide, by decide⟩

/-- Two overlapping blocks that differ in boldness (so the line merge
declines) but overlap ≥ 80% (so the final overlap stage merges them). -/
def c2BlockA : MBlock :=
  { text := "A", bbox := ⟨0, 0, 10, 10⟩,
    style_info := { font_size := some 12, is_bold := some true } }

def c2BlockB : MBlock :=
  { text := "B", bbox := ⟨0, 0, 10, 10.1⟩,
    style_info := { font_size := some 12, is_bold := some false } }

/-- C2: `merge_text_blocks` is not idempotent.  On this input it returns a
single merged block, and re-merging that output returns `[]` (the sole
block ends up in the never-flushed trailing group), so re-merging merged
output is not a no-op. -/
theorem merge_text_blocks_not_idempotent :
    (merge_text_blocks [c2BlockA, c2BlockB]).length = 1 ∧
    merge_text_blocks (merge_text_blocks [c2BlockA, c2BlockB]) = [] ∧
    merge_text_blocks (merge_text_blocks [c2BlockA, c2BlockB])
      ≠ merge_text_blocks [c2BlockA, c2BlockB] := by
  refine ⟨by decide, by decide, by decide⟩

/-- A Figure element 10pt above the caption position, 90% horizontal
overlap with the caption's box (caption width 270, overlap 243). -/
def c3Figure : Element :=
  { text := "", element_type := .FIGURE, bbox := ⟨100, 300, 363, 500⟩,
    page_number := 1 }

def c3CaptionBox : Box := ⟨120, 510, 390, 524⟩

def c3Text : String := "Figure 2: Sample chart showing results"

set_option maxRecDepth 20000 in
/-- C3: `caption_detector.py` never imports `ElementType`, so line 237
(`prev_type == ElementType.CAPTION`) raises `NameError` on every call with
a non-empty `elements_before`; `classify_element` swallows the exception
(lines 198–200) and falls through.  Hence the claimed scenario — this text
10pt below a Figure with 90% horizontal overlap — is classified `TEXT`
with confidence 0.7, not `FIGURE_CAPTION` with confidence > 0.7.  (The
claim's negative half holds trivially: with the figure 200pt away the
result is the same `TEXT` element.) -/
theorem caption_scenario_yields_text :
    is_likely_caption c3Text c3CaptionBox { font_size := some 10 } pageStd
      [c3Figure] [] = .error () ∧
    (classify_element defaultOracle c3Text c3CaptionBox
        { font_size := some 10 } pageStd 1 ctxStd [c3Figure] []).1.element_type
      = ElementType.TEXT ∧
    ¬ (classify_element defaultOracle c3Text c3CaptionBox
        { font_size := some 10 } pageStd 1 ctxStd [c3Figure] []).1.element_type
      = ElementType.FIGURE_CAPTION ∧
    (classify_element defaultOracle c3Text c3CaptionBox
        { font_size := some 10 } pageStd 1 ctxStd
        [c3Figure] []).1.metadata.confidence = 0.7 ∧
    (classify_element defaultOracle c3Text c3CaptionBox
        { font_size := some 10 } pageStd 1 ctxStd
        [{ c3Figure with bbox := ⟨100, 110, 363, 310⟩ }] []).1.element_type
      = ElementType.TEXT := by
  refine ⟨rfl, by decide, by decide, by decide, by decide⟩

theorem charsStartWith_dropWhile_space (L : List Char) :
    charsStartWith (L.dropWhile pyIsSpace) [' '] = false := by
  induction L with
  | nil => rfl
  | cons c cs ih =>
      by_cases h : pyIsSpace c
      · simpa [List.dropWhile, h] using ih
      · have hc : ¬ c = ' ' := by
          intro he
          rw [he] at h
          exact h rfl
        simp [List.dropWhile, h, charsStartWith, hc]

theorem strEndsWith_pyRStrip_space (s : String) :
    strEndsWith (pyRStrip s) " " = false := by
  show charsStartWith (pyRStrip s).toList.reverse ((" " : String).toList.reverse)
    = false
  have h0 : ((" " : String).toList.reverse) = [' '] := rfl
  have h1 : (pyRStrip s).toList.reverse = s.toList.reverse.dropWhile pyIsSpace := by
    simp [pyRStrip, String.toList]
  rw [h0, h1]
  exact charsStartWith_dropWhile_space _

theorem strStartsWith_pyLStrip_space (s : String) :
    strStartsWith (pyLStrip s) " " = false := by
  show charsStartWith (pyLStrip s).toList ((" " : String).toList) = false
  have h0 : ((" " : String).toList) = [' '] := rfl
  have h1 : (pyLStrip s).toList = s.toList.dropWhile pyIsSpace := by
    simp [pyLStrip, String.toList]
  rw [h0, h1]
  exact charsStartWith_dropWhile_space _

def c7Hyphen1 : MBlock := { text := "exam-", bbox := ⟨0, 0, 10, 10⟩ }

def c7Hyphen2 : MBlock := { text := "ple", bbox := ⟨12, 0, 20, 10⟩ }

/-- C7 counterexample: when the predecessor ends in a hyphen, `merge_blocks`
still joins with a space and keeps the hyphen — the merged text contains
the substring "- " at the join point, contradicting "neither that hyphen
nor an inserted space". -/
theorem merge_blocks_keeps_hyphen :
    (merge_blocks [c7Hyphen1, c7Hyphen2]).map (fun b => b.text)
      = some "exam- ple" ∧
    strContains "exam- ple" "- " = true := by
  refine ⟨by decide, by decide⟩

/-- C7 amended: `merge_blocks` joins any two blocks as
`text1.rstrip() + " " + text2.lstrip()` — exactly one space between them in
every case, hyphenated or not (the hyphen is retained; the source's
`needs_space` test is always true after the strips). -/
theorem merge_blocks_single_space (b1 b2 : MBlock) :
    (merge_blocks [b1, b2]).map (fun b => b.text)
      = some (pyRStrip b1.text ++ " " ++ pyLStrip b2.text) := by
  unfold merge_blocks
  simp [mergeTextFold, strEndsWith_pyRStrip_space, strStartsWith_pyLStrip_space]

/-- Style shared by the list-item scenario blocks. -/
def c5Style : StyleInfo := { font_size := some 12, font_name := some "Arial" }

/-- The claimed scenario's elements, classified in reading order with the
classifier's context window (5pt vertical gap, 2pt indent offset, same
font). -/
def c5Item1 : Element :=
  (classify_element defaultOracle "1. First item" ⟨100, 300, 200, 307⟩
    c5Style pageStd 1 ctxStd [] []).1

def c5Item2 : Element :=
  (classify_element defaultOracle "2. Second item" ⟨102, 312, 202, 319⟩
    c5Style pageStd 1 ctxStd [c5Item1] []).1

set_option maxRecDepth 40000 in
/-- C5 counterexample: `is_list_item` rejects "1. First item" because the
text after the marker starts with a capital letter (text_analysis.py lines
329–332, "more likely a section"), so both blocks are classified `TEXT`,
not `LIST_ITEM`, and list grouping assigns neither of them any
`list_group_id` — they do not land in one ListGroup (and, a fortiori, the
insertion scenario does not produce two different group ids). -/
theorem claimed_list_items_get_no_group :
    is_list_item "1. First item" = false ∧
    is_list_item "2. Second item" = false ∧
    c5Item1.element_type = ElementType.TEXT ∧
    c5Item2.element_type = ElementType.TEXT ∧
    ((group_consecutive_list_items [c5Item1, c5Item2] true 20 10 0).map
      (fun e => e.metadata.list_group_id)) = [none, none] := by
  refine ⟨by decide, by decide, by decide, by decide, by decide⟩

/-- The same scenario with the item bodies in lowercase (the form
`is_list_item` accepts). -/
def c5Low1 : Element :=
  (classify_element defaultOracle "1. first item" ⟨100, 300, 200, 307⟩
    c5Style pageStd 1 ctxStd [] []).1

def c5Low2 : Element :=
  (classify_element defaultOracle "2. second item" ⟨102, 312, 202, 319⟩
    c5Style pageStd 1 ctxStd [c5Low1] []).1

def c5Para : Element :=
  (classify_element defaultOracle "Regular paragraph text." ⟨100, 312, 300, 319⟩
    c5Style pageStd 1 ctxStd [c5Low1] []).1

def c5Low2Later : Element :=
  (classify_element defaultOracle "2. second item" ⟨102, 324, 202, 331⟩
    c5Style pageStd 1 ctxStd [c5Low1, c5Para] []).1

set_option maxRecDepth 40000 in
/-- C5 amended: with the item bodies lowercased ("1. first item",
"2. second item", 5pt below at a 2pt indent offset and same font), both are
classified `LIST_ITEM` and list grouping stamps both with the same group
id; inserting "Regular paragraph text." (classified `TEXT`) between them
resets the walk, so the two items receive two different group ids. -/
theorem lowercase_list_items_group_and_split :
    c5Low1.element_type = ElementType.LIST_ITEM ∧
    c5Low2.element_type = ElementType.LIST_ITEM ∧
    c5Para.element_type = ElementType.TEXT ∧
    ((group_consecutive_list_items [c5Low1, c5Low2] true 20 10 0).map
      (fun e => e.metadata.list_group_id)) = [some 0, some 0] ∧
    ((group_consecutive_list_items [c5Low1, c5Para, c5Low2Later] true 20 10 0).map
      (fun e => e.metadata.list_group_id)) = [some 0, none, some 1] := by
  refine ⟨by decide, by decide, by decide, by decide, by decide⟩

/-- The claimed style of C4: bold, 16.8pt against a 12pt body baseline
(font-size ratio 1.4). -/
def c4Style : StyleInfo := { font_size := some 16.8, is_bold := some true }

set_option maxRecDepth 40000 in
/-- C4: `classify_element` on "1.2 Methodology" with bold style and
font-size ratio 1.4 relative to the 12pt baseline returns a `TITLE` element
with confidence ≥ 0.9 — for every position on every page, every context
window, and every behaviour of the NLTK sentence tokenizer. -/
theorem classify_section_title (o : NlpOracle) (bbox : Box) (page : PageInfo)
    (pn : Nat) (eb ea : List Element) :
    (classify_element o "1.2 Methodology" bbox c4Style page pn ctxStd eb
        ea).1.element_type = ElementType.TITLE ∧
    0.9 ≤ (classify_element o "1.2 Methodology" bbox c4Style page pn ctxStd eb
        ea).1.metadata.confidence := by
  have hps : pyStrip "1.2 Methodology" = "1.2 Methodology" := rfl
  by_cases h : o.sentCount "1.2 Methodology" > 1
  · have hipt : is_possible_title o "1.2 Methodology"
        (some { font_size := some 16.8, is_bold := some true,
                median_font_size := some 12 }) = (true, 0.95) := by
      simp +decide [is_possible_title, get_text_stats, hps, h]
    simp +decide [classify_element, classifyElementCore, hps, hipt, c4Style,
      ctxStd, classifyCaptionStep_eq_none]
  · have hipt : is_possible_title o "1.2 Methodology"
        (some { font_size := some 16.8, is_bold := some true,
                median_font_size := some 12 }) = (true, 1) := by
      simp +decide [is_possible_title, get_text_stats, hps, h]
    simp +decide [classify_element, classifyElementCore, hps, hipt, c4Style,
      ctxStd, classifyCaptionStep_eq_none]


theorem mem_insStableBy {α : Type} (key : α → Q × Q) (x a : α) (l : List α) :
    a ∈ insStableBy key x l ↔ a = x ∨ a ∈ l := by
  induction l with
  | nil => simp [insStableBy]
  | cons y ys ih =>
      unfold insStableBy
      split
      · simp only [List.mem_cons, ih]
        try tauto
      · simp only [List.mem_cons]
        try tauto

theorem mem_pySortBy_aux {α : Type} (key : α → Q × Q) (a : α) (l : List α) :
    ∀ acc : List α,
    a ∈ l.foldl (fun acc x => insStableBy key x acc) acc ↔ a ∈ acc ∨ a ∈ l := by
  induction l with
  | nil => intro acc; simp
  | cons x xs ih =>
      intro acc
      simp only [List.foldl_cons]
      rw [ih, mem_insStableBy]
      simp only [List.mem_cons]
      try tauto

theorem mem_pySortBy {α : Type} (key : α → Q × Q) (a : α) (l : List α) :
    a ∈ pySortBy key l ↔ a ∈ l := by
  unfold pySortBy
  rw [mem_pySortBy_aux]
  simp

theorem continuations_adjacent (pages : List DSPage) (m : SplitMarker)
    (hm : m ∈ detect_split_continuations pages) :
    m.target_page = m.source_page + 1 := by
  simp only [detect_split_continuations, List.mem_flatMap] at hm
  obtain ⟨t, -, hm⟩ := hm
  rw [List.mem_append] at hm
  rcases hm with hm | hm <;>
    (split at hm
     · rw [List.mem_replicate] at hm
       rw [hm.2]
     · exact absurd hm (List.not_mem_nil m))

theorem headers_footers_adjacent (pages : List DSPage) (m : SplitMarker)
    (hm : m ∈ detect_split_headers_footers pages) :
    m.target_page = m.source_page + 1 := by
  unfold detect_split_headers_footers at hm
  split at hm
  · exact absurd hm (List.not_mem_nil m)
  · simp only [List.mem_flatMap] at hm
    obtain ⟨t, -, hm⟩ := hm
    rw [List.mem_append] at hm
    rcases hm with hm | hm <;>
      (split at hm
       · split at hm
         · rw [List.mem_singleton] at hm
           rw [hm]
         · exact absurd hm (List.not_mem_nil m)
       · exact absurd hm (List.not_mem_nil m))

theorem tables_adjacent (pages : List DSPage) (m : SplitMarker)
    (hm : m ∈ detect_split_tables pages) :
    m.target_page = m.source_page + 1 := by
  simp only [detect_split_tables, List.mem_flatMap] at hm
  obtain ⟨t, -, hm⟩ := hm
  split at hm
  · split at hm
    · rw [List.mem_singleton] at hm
      rw [hm]
    · exact absurd hm (List.not_mem_nil m)
  · exact absurd hm (List.not_mem_nil m)

theorem lists_adjacent (pages : List DSPage) (m : SplitMarker)
    (hm : m ∈ detect_split_lists pages) :
    m.target_page = m.source_page + 1 := by
  simp only [detect_split_lists, List.mem_flatMap] at hm
  obtain ⟨t, -, hm⟩ := hm
  split at hm
  · split at hm
    · rw [List.mem_singleton] at hm
      rw [hm]
    · exact absurd hm (List.not_mem_nil m)
  · exact absurd hm (List.not_mem_nil m)

theorem paragraphs_adjacent (pages : List DSPage) (m : SplitMarker)
    (hm : m ∈ detect_split_paragraphs pages) :
    m.target_page = m.source_page + 1 := by
  simp only [detect_split_paragraphs, List.mem_flatMap] at hm
  obtain ⟨t, -, hm⟩ := hm
  split at hm
  · split at hm
    · rw [List.mem_singleton] at hm
      rw [hm]
    · exact absurd hm (List.not_mem_nil m)
  · exact absurd hm (List.not_mem_nil m)

/-- C8: every `SplitMarker` emitted by the Document Structure Analyzer —
by any of the five detectors, and hence by
`DocumentStructureAnalyzer.analyze` — satisfies
`target_page = source_page + 1`: split markers only link adjacent pages. -/
theorem analyze_markers_adjacent (pages : List DSPage) (m : SplitMarker)
    (hm : m ∈ analyze pages) : m.target_page = m.source_page + 1 := by
  unfold analyze at hm
  rw [mem_pySortBy] at hm
  simp only [List.mem_append] at hm
  rcases hm with ((((h | h) | h) | h) | h)
  · exact continuations_adjacent pages m h
  · exact headers_footers_adjacent pages m h
  · exact tables_adjacent pages m h
  · exact lists_adjacent pages m h
  · exact paragraphs_adjacent pages m h

/-- A two-page document whose first page ends in a continuation phrase. -/
def c8Pages : List DSPage :=
  [⟨[{ text := "continued on next page", bbox := ⟨10, 700, 200, 712⟩ }]⟩,
   ⟨[{ text := "More text", bbox := ⟨10, 50, 200, 62⟩ }]⟩]

def c8Marker : SplitMarker :=
  { split_type := .CONTINUATION, source_page := 1, target_page := 2,
    source_bbox := some ⟨10, 700, 200, 712⟩, confidence := 0.9 }

/-- Witness for C8: a concrete marker produced by `analyze` on a concrete
two-page document. -/
theorem analyze_markers_adjacent_witness :
    c8Marker.target_page = c8Marker.source_page + 1 :=
  analyze_markers_adjacent c8Pages c8Marker (by decide)
